import Mathlib

/-!
# Verification of the UXR.QuestCamera native plugin (UCamera cpp sources)

A shallow embedding of the native C++ plugin sources under
`UCamera/UCamera/src/main/cpp`:

* `TextureManager.cpp`  — the older revision: pending-session map keyed by
  timestamp, registered surface-texture map keyed by texture id, draw-info map,
  and the `setupTextureNative` ALLOCATE flow (namespace `TM`);
* `STCaptureSessionHelper.cpp` — the newer revision: registered-session map,
  surface-texture map, renderer map, and the `setupNativeTextures` ALLOCATE
  flow (namespace `Helper`);
* `Renderer.cpp` / `Renderer.h` — per-stream renderer with static shared GL
  resources (namespace `Rend`);
* `ShaderManager.cpp` / `ShaderManager.h` — shared GL resources and the
  `renderFrame` render pass (namespace `SM`).

JNI references, native surface-texture handles and GL object names are
modelled as natural numbers; `std::map` is modelled as an association list
with unique keys; every externally determined outcome (results of
`NewGlobalRef`, `glGenTextures`, thread attachment, JNI exceptions, compile
and link statuses, framebuffer completeness) is an explicit environment
parameter.  Each operation returns its successor state together with a trace
of observable events (reference creation and release, GL object creation and
deletion, callback invocations, draw calls, log lines), so that claims about
"released exactly once", "no leak" or "no draw call" become statements about
the trace.
-/

/-- One observable action of the native plugin. -/
inductive Event where
  | newGlobalRef (r : Nat)
  | deleteGlobalRef (r : Nat)
  | releaseNativeST (h : Nat)
  | acquireNativeST (h : Nat)
  | genTexture (t : Nat)
  | delTexture (t : Nat)
  | genFramebuffer (f : Nat)
  | delFramebuffer (f : Nat)
  | bindFramebuffer (f : Nat)
  | attachTexture (t : Nat)
  | viewport (w h : Int)
  | draw
  | callStartSession (r : Nat) (texId : Nat)
  | doneCb
  | doneCbFlags (glClean sent : Bool) (unityTex natTex : Nat) (idValid : Bool)
  | doneCbTex (tex : Nat) (ok : Bool)
  | getShaderLog (s : Nat)
  | getProgramLog (p : Nat)
  | delShader (s : Nat)
  | delProgram (p : Nat)
  | delVertexArray (v : Nat)
  | delBuffer (b : Nat)
  | attachShaderEv (p s : Nat)
  | linkAttempt (p : Nat)
  | updateTexImage
  | logE (msg : String)
  | logI (msg : String)
  deriving DecidableEq, Repr

/-- Lookup in an association-list map (`std::map::find`). -/
def mfind {K V : Type} [DecidableEq K] : List (K × V) → K → Option V
  | [], _ => none
  | (k', v) :: rest, k => if k' = k then some v else mfind rest k

/-- Insert-or-replace (`m[k] = v`, or in-place assignment through an iterator). -/
def mset {K V : Type} [DecidableEq K] : List (K × V) → K → V → List (K × V)
  | [], k, v => [(k, v)]
  | (k', v') :: rest, k, v =>
    if k' = k then (k', v) :: rest else (k', v') :: mset rest k v

/-- Erase a key (`std::map::erase`); removes the first matching entry. -/
def merase {K V : Type} [DecidableEq K] : List (K × V) → K → List (K × V)
  | [], _ => []
  | (k', v') :: rest, k =>
    if k' = k then rest else (k', v') :: merase rest k

/-- The global references deleted in a trace, in order. -/
def refDeletes : List Event → List Nat
  | [] => []
  | Event.deleteGlobalRef r :: tr => r :: refDeletes tr
  | _ :: tr => refDeletes tr

/-- The native surface-texture handles released in a trace, in order. -/
def nativeReleases : List Event → List Nat
  | [] => []
  | Event.releaseNativeST h :: tr => h :: nativeReleases tr
  | _ :: tr => nativeReleases tr

/-- The GL textures generated in a trace, in order. -/
def texGens : List Event → List Nat
  | [] => []
  | Event.genTexture t :: tr => t :: texGens tr
  | _ :: tr => texGens tr

/-- The GL textures deleted in a trace, in order. -/
def texDels : List Event → List Nat
  | [] => []
  | Event.delTexture t :: tr => t :: texDels tr
  | _ :: tr => texDels tr

/-- The GL framebuffers generated in a trace, in order. -/
def fbGens : List Event → List Nat
  | [] => []
  | Event.genFramebuffer f :: tr => f :: fbGens tr
  | _ :: tr => fbGens tr

/-- The GL framebuffers deleted in a trace, in order. -/
def fbDels : List Event → List Nat
  | [] => []
  | Event.delFramebuffer f :: tr => f :: fbDels tr
  | _ :: tr => fbDels tr

/-- Every GL texture and framebuffer generated in the trace is also deleted in
it (and conversely): the operation leaks no GL object. -/
def glBalanced (tr : List Event) : Prop :=
  texGens tr = texDels tr ∧ fbGens tr = fbDels tr

/-- Framebuffer-binding events of a trace, in order. -/
def fbBinds : List Event → List Nat
  | [] => []
  | Event.bindFramebuffer f :: tr => f :: fbBinds tr
  | _ :: tr => fbBinds tr

/-- The framebuffer left bound at the end of a trace, if any bind occurred. -/
def finalFbBinding (tr : List Event) : Option Nat :=
  (fbBinds tr).getLast?

/-- Is this event an error-log line? -/
def isErrLog : Event → Bool
  | Event.logE _ => true
  | _ => false

/-- Is this event an invocation of the `startCaptureSession` callback? -/
def isSessionCall : Event → Bool
  | Event.callStartSession _ _ => true
  | _ => false

/-- Is this event a done-callback invocation (any revision's signature)? -/
def isDoneCb : Event → Bool
  | Event.doneCb => true
  | Event.doneCbFlags _ _ _ _ _ => true
  | Event.doneCbTex _ _ => true
  | _ => false

namespace Rend

/-- Per-instance fields of `Renderer` (Renderer.h, lines 29-34). -/
structure RendererState where
  unityTexture : Nat
  sourceTexture : Nat
  frameBufferObject : Nat
  width : Int
  height : Int
  disposed : Bool
  deriving DecidableEq, Repr

/-- Static fields of `Renderer` (Renderer.h, lines 36-43).
`staticReferenceHolders` is a `uint8_t`, so arithmetic on it is mod 256. -/
structure RendererStatics where
  staticReferenceHolders : Nat
  shaderProgram : Nat
  transformMatrixHandle : Int
  textureSamplerHandle : Int
  vertexBufferObject : Nat
  vertexArrayObject : Nat
  deriving DecidableEq, Repr

/-- Driver-determined outcomes of one `compileShader` call: the id returned by
`glCreateShader` (0 on failure), the compile status, and the reported
info-log length. -/
structure CompileEnv where
  createdId : Nat
  compileOk : Bool
  infoLogLength : Int
  deriving DecidableEq, Repr

/-- Driver-determined outcomes of one link attempt: the id returned by
`glCreateProgram` (0 on failure), the link status, the reported info-log
length, and the two uniform locations fetched on success. -/
structure LinkEnv where
  programId : Nat
  linkOk : Bool
  infoLogLength : Int
  transformMatrixLoc : Int
  textureSamplerLoc : Int
  deriving DecidableEq, Repr

/-- Driver-determined outcomes of `setupGeometry`: the generated VAO and VBO
names (0 on failure) and whether `glBufferData` raised a GL error. -/
structure GeometryEnv where
  vaoId : Nat
  vboId : Nat
  bufferDataError : Bool
  deriving DecidableEq, Repr

/-- Models `Renderer::Renderer` (Renderer.cpp, lines 67-74). -/
def mkRenderer (unityTexture : Nat) (width height : Int) : RendererState :=
  { unityTexture := unityTexture, sourceTexture := 0, frameBufferObject := 0,
    width := width, height := height, disposed := false }

/-- Models `Renderer::compileShader` (Renderer.cpp, lines 237-272): on compile
failure, the info log is retrieved and logged (when the driver reports a
positive length) before the shader object is deleted. -/
def compileShader (e : CompileEnv) : Option Nat × List Event :=
  if e.createdId = 0 then
    (none, [Event.logE "Could not create shader"])
  else if e.compileOk then
    (some e.createdId, [Event.logI "Compiled shader"])
  else if e.infoLogLength > 0 then
    (none, [Event.getShaderLog e.createdId,
            Event.logE "Could not compile shader due to error",
            Event.delShader e.createdId])
  else
    (none, [Event.logE "Could not compile shader",
            Event.delShader e.createdId])

/-- Models `Renderer::linkShaderProgram` (Renderer.cpp, lines 196-235):
assigns `_shaderProgram`, attaches both shaders, links; on failure retrieves
and logs the program info log (when its length is positive) and deletes the
program, zeroing `_shaderProgram`; on success stores the uniform handles. -/
def linkShaderProgram (st : RendererStatics) (vertexShader fragmentShader : Nat)
    (e : LinkEnv) : Bool × RendererStatics × List Event :=
  if e.programId = 0 then
    (false, { st with shaderProgram := 0 },
     [Event.logE "Could not create shader program"])
  else
    let pre := [Event.attachShaderEv e.programId vertexShader,
                Event.attachShaderEv e.programId fragmentShader,
                Event.linkAttempt e.programId]
    if e.linkOk then
      (true,
       { st with shaderProgram := e.programId,
                 transformMatrixHandle := e.transformMatrixLoc,
                 textureSamplerHandle := e.textureSamplerLoc },
       pre ++ [Event.logI "Linked shader program"])
    else if e.infoLogLength > 0 then
      (false, { st with shaderProgram := 0 },
       pre ++ [Event.getProgramLog e.programId,
               Event.logE "Could not link shader due to error",
               Event.delProgram e.programId])
    else
      (false, { st with shaderProgram := 0 },
       pre ++ [Event.logE "Could not link shader",
               Event.delProgram e.programId])

/-- Models `Renderer::setupGeometry` (Renderer.cpp, lines 274-323). -/
def setupGeometry (st : RendererStatics) (e : GeometryEnv) :
    Bool × RendererStatics × List Event :=
  if e.vaoId = 0 then
    (false, { st with vertexArrayObject := 0 },
     [Event.logE "Could not create vertex array object"])
  else if e.vboId = 0 then
    (false, { st with vertexArrayObject := 0, vertexBufferObject := 0 },
     [Event.logE "Could not create vertex buffer object",
      Event.delVertexArray e.vaoId])
  else if e.bufferDataError then
    (false, { st with vertexArrayObject := 0, vertexBufferObject := 0 },
     [Event.logE "GL error after glBufferData",
      Event.delVertexArray e.vaoId, Event.delBuffer e.vboId])
  else
    (true, { st with vertexArrayObject := e.vaoId, vertexBufferObject := e.vboId },
     [Event.logI "Geometry data setup"])

/-- All driver-determined outcomes of one `Renderer::initialize` call. -/
structure SetupEnv where
  vertexCompile : CompileEnv
  fragmentCompile : CompileEnv
  link : LinkEnv
  geometry : GeometryEnv
  genFboId : Nat
  genTexId : Nat
  deriving DecidableEq, Repr

/-- Models `Renderer::initialize` (Renderer.cpp, lines 76-121).  Returns the
generated source texture name on success (the `*texture` out-parameter).
Both shader objects are deleted right after the link attempt regardless of
the link status (lines 89-90). -/
def setup (r : RendererState) (st : RendererStatics) (e : SetupEnv) :
    Option Nat × RendererState × RendererStatics × List Event :=
  let step1 : Bool × RendererStatics × List Event :=
    if st.shaderProgram = 0 then
      match compileShader e.vertexCompile with
      | (none, t1) => (false, st, t1)
      | (some vs, t1) =>
        match compileShader e.fragmentCompile with
        | (none, t2) => (false, st, t1 ++ t2 ++ [Event.delShader vs])
        | (some fs, t2) =>
          match linkShaderProgram st vs fs e.link with
          | (linkStatus, st', t3) =>
            (linkStatus, st',
             t1 ++ t2 ++ t3 ++ [Event.delShader vs, Event.delShader fs])
    else (true, st, [])
  match step1 with
  | (false, st1, tr) => (none, r, st1, tr)
  | (true, st1, tr) =>
    let step2 : Bool × RendererStatics × List Event :=
      if st1.vertexBufferObject = 0 then
        match setupGeometry st1 e.geometry with
        | (false, st2, t4) =>
          (false, { st2 with shaderProgram := 0 },
           t4 ++ [Event.delProgram st2.shaderProgram])
        | (true, st2, t4) => (true, st2, t4)
      else (true, st1, [])
    match step2 with
    | (false, st2, tr2) => (none, r, st2, tr ++ tr2)
    | (true, st2, tr2) =>
      let r' := { r with frameBufferObject := e.genFboId, sourceTexture := e.genTexId }
      let st3 := { st2 with
        staticReferenceHolders := (st2.staticReferenceHolders + 1) % 256 }
      (some e.genTexId, r', st3,
       tr ++ tr2 ++ [Event.genFramebuffer e.genFboId, Event.genTexture e.genTexId,
                     Event.logI "Renderer setup complete"])

/-- Models `Renderer::render` (Renderer.cpp, lines 123-154).  `fbComplete` is
the result of the `glCheckFramebufferStatus` call.  Note that the method
performs no validation of `_width`/`_height`. -/
def render (r : RendererState) (_st : RendererStatics) (fbComplete : Bool) :
    Bool × List Event :=
  let pre := [Event.updateTexImage,
              Event.bindFramebuffer r.frameBufferObject,
              Event.attachTexture r.unityTexture]
  if fbComplete then
    (true, pre ++ [Event.viewport r.width r.height, Event.draw,
                   Event.bindFramebuffer 0])
  else
    (false, pre ++ [Event.bindFramebuffer 0,
                    Event.logE "Could not bind framebuffer to texture"])

/-- Models `Renderer::dispose` (Renderer.cpp, lines 156-194): early-returns if
already disposed, otherwise marks disposed, decrements the `uint8_t` static
reference counter (mod 256), deletes the per-instance framebuffer and source
texture, and deletes the static program/VAO/VBO when the counter reaches 0. -/
def dispose (r : RendererState) (st : RendererStatics) :
    RendererState × RendererStatics × List Event :=
  if r.disposed then (r, st, [])
  else
    let r1 := { r with disposed := true, frameBufferObject := 0, sourceTexture := 0 }
    let holders := (st.staticReferenceHolders + 255) % 256
    let t1 := if r.frameBufferObject ≠ 0 then [Event.delFramebuffer r.frameBufferObject] else []
    let t2 := if r.sourceTexture ≠ 0 then [Event.delTexture r.sourceTexture] else []
    if holders = 0 then
      let t3 := if st.shaderProgram ≠ 0 then [Event.delProgram st.shaderProgram] else []
      let t4 := if st.vertexArrayObject ≠ 0 then [Event.delVertexArray st.vertexArrayObject] else []
      let t5 := if st.vertexBufferObject ≠ 0 then [Event.delBuffer st.vertexBufferObject] else []
      (r1, { st with staticReferenceHolders := holders, shaderProgram := 0,
                     vertexArrayObject := 0, vertexBufferObject := 0 },
       t1 ++ t2 ++ t3 ++ t4 ++ t5 ++ [Event.logI "Renderer disposed"])
    else
      (r1, { st with staticReferenceHolders := holders },
       t1 ++ t2 ++ [Event.logI "Renderer disposed"])

end Rend

namespace SM

/-- `ShaderManager::GlobalRenderInfo` (ShaderManager.h, lines 27-35). -/
structure GlobalRenderInfo where
  program : Nat
  vbo : Nat
  ebo : Nat
  vao : Nat
  textureUniformLocation : Int
  resolutionUniformLocation : Int
  deriving DecidableEq, Repr

/-- `ShaderManager::DrawInfo` (ShaderManager.h, lines 40-47). -/
structure DrawInfo where
  sourceTextureId : Nat
  targetTextureId : Nat
  fbo : Nat
  viewportWidth : Int
  viewportHeight : Int
  deriving DecidableEq, Repr

/-- The zero-initialised `GlobalRenderInfo` (`*output = {};`). -/
def blankRenderInfo : GlobalRenderInfo := ⟨0, 0, 0, 0, -1, -1⟩

/-- Models the file-scope `compileShader` (ShaderManager.cpp, lines 24-54).
This revision retrieves the info log only when its reported length exceeds 1. -/
def compileShader (e : Rend.CompileEnv) : Option Nat × List Event :=
  if e.createdId = 0 then
    (none, [Event.logE "Could not create shader"])
  else if e.compileOk then
    (some e.createdId, [])
  else if e.infoLogLength > 1 then
    (none, [Event.getShaderLog e.createdId,
            Event.logE "Could not compile shader due to error",
            Event.delShader e.createdId])
  else
    (none, [Event.logE "Could not compile shader, unknown error",
            Event.delShader e.createdId])

/-- Models `ShaderManager::cleanupGlobals` (ShaderManager.cpp, lines 298-330). -/
def cleanupGlobals (ri : GlobalRenderInfo) : GlobalRenderInfo × List Event :=
  let t1 := if ri.vao ≠ 0 then [Event.delVertexArray ri.vao] else []
  let t2 := if ri.ebo ≠ 0 then [Event.delBuffer ri.ebo] else []
  let t3 := if ri.vbo ≠ 0 then [Event.delBuffer ri.vbo] else []
  let t4 := if ri.program ≠ 0 then [Event.delProgram ri.program] else []
  (blankRenderInfo, t1 ++ t2 ++ t3 ++ t4)

/-- Driver-determined outcomes of one `setupGlobals` call. -/
structure SetupEnv where
  vertexCompile : Rend.CompileEnv
  fragmentCompile : Rend.CompileEnv
  programId : Nat
  linkOk : Bool
  linkInfoLen : Int
  texLoc : Int
  resLoc : Int
  vboId : Nat
  eboId : Nat
  vaoId : Nat
  deriving DecidableEq, Repr

/-- Models `ShaderManager::setupGlobals` (ShaderManager.cpp, lines 137-296). -/
def setupGlobals (e : SetupEnv) : Bool × GlobalRenderInfo × List Event :=
  match compileShader e.vertexCompile with
  | (none, t1) =>
    (false, blankRenderInfo,
     t1 ++ [Event.logE "setupGlobals failed, vertex shader compilation failed"])
  | (some vs, t1) =>
    match compileShader e.fragmentCompile with
    | (none, t2) =>
      (false, blankRenderInfo,
       t1 ++ t2 ++ [Event.logE "setupGlobals failed, fragment shader compilation failed",
                    Event.delShader vs])
    | (some fs, t2) =>
      if e.programId = 0 then
        (false, blankRenderInfo,
         t1 ++ t2 ++ [Event.logE "setupGlobals failed, shader program creation failed",
                      Event.delShader vs, Event.delShader fs])
      else
        let ri1 : GlobalRenderInfo := { blankRenderInfo with program := e.programId }
        let pre := t1 ++ t2 ++
          [Event.attachShaderEv e.programId vs, Event.attachShaderEv e.programId fs,
           Event.linkAttempt e.programId]
        if ¬ e.linkOk then
          let logt :=
            if e.linkInfoLen > 1 then
              [Event.getProgramLog e.programId,
               Event.logE "setupGlobals failed, error linking shader program"]
            else
              [Event.logE "setupGlobals failed, unknown error linking shader program"]
          match cleanupGlobals ri1 with
          | (riz, tc) =>
            (false, riz,
             pre ++ logt ++ [Event.delShader vs, Event.delShader fs] ++ tc)
        else
          let post := [Event.delShader vs, Event.delShader fs]
          let ri2 := { ri1 with textureUniformLocation := e.texLoc }
          if e.texLoc = -1 then
            match cleanupGlobals ri2 with
            | (riz, tc) =>
              (false, riz,
               pre ++ post ++ [Event.logE "could not find uniform location for u_texture"] ++ tc)
          else
            let ri3 := { ri2 with resolutionUniformLocation := e.resLoc }
            if e.resLoc = -1 then
              match cleanupGlobals ri3 with
              | (riz, tc) =>
                (false, riz,
                 pre ++ post ++ [Event.logE "could not find uniform location for u_resolution"] ++ tc)
            else
              let ri4 := { ri3 with vbo := e.vboId }
              if e.vboId = 0 then
                match cleanupGlobals ri4 with
                | (riz, tc) =>
                  (false, riz,
                   pre ++ post ++ [Event.logE "VBO could not be created"] ++ tc)
              else
                let ri5 := { ri4 with ebo := e.eboId }
                if e.eboId = 0 then
                  match cleanupGlobals ri5 with
                  | (riz, tc) =>
                    (false, riz,
                     pre ++ post ++ [Event.logE "EBO could not be created"] ++ tc)
                else
                  let ri6 := { ri5 with vao := e.vaoId }
                  if e.vaoId = 0 then
                    match cleanupGlobals ri6 with
                    | (riz, tc) =>
                      (false, riz,
                       pre ++ post ++ [Event.logE "VAO could not be created"] ++ tc)
                  else
                    (true, ri6,
                     pre ++ post ++ [Event.logI "setupGlobals completed successfully"])

/-- Models the validity test in `ShaderManager::checkGlobalRenderInfo`
(ShaderManager.cpp, line 130). -/
def validRenderInfo (ri : GlobalRenderInfo) : Bool :=
  ¬(ri.program = 0 ∨ ri.vao = 0 ∨ ri.ebo = 0 ∨ ri.vbo = 0 ∨
    ri.textureUniformLocation = -1 ∨ ri.resolutionUniformLocation = -1)

/-- Models `ShaderManager::checkGlobalRenderInfo` (ShaderManager.cpp,
lines 129-135): valid data is kept, otherwise `setupGlobals` runs. -/
def checkGlobalRenderInfo (ri : GlobalRenderInfo) (e : SetupEnv) :
    Bool × GlobalRenderInfo × List Event :=
  if validRenderInfo ri then (true, ri, []) else setupGlobals e

/-- Models `ShaderManager::createFrameBuffer` (ShaderManager.cpp,
lines 332-345); `genId` is the name produced by `glGenFramebuffers`. -/
def createFrameBuffer (genId : Nat) : Nat × List Event :=
  if genId = 0 then (0, [Event.logE "FrameBuffer could not be created"])
  else (genId, [Event.genFramebuffer genId])

/-- Models `ShaderManager::cleanupFrameBuffer` (ShaderManager.cpp,
lines 347-354). -/
def cleanupFrameBuffer (fbId : Nat) : List Event :=
  if fbId = 0 then [] else [Event.delFramebuffer fbId]

/-- Models `ShaderManager::renderFrame` (ShaderManager.cpp, lines 356-423).
`fbComplete` is the result of `glCheckFramebufferStatus`. -/
def renderFrame (ri : GlobalRenderInfo) (di : DrawInfo) (fbComplete : Bool) :
    List Event :=
  if ri.program = 0 ∨ ri.vao = 0 ∨ ri.textureUniformLocation = -1 ∨
      ri.resolutionUniformLocation = -1 then
    [Event.logE "renderFrame error, invalid RenderInfo or setup incomplete"]
  else if di.fbo = 0 ∨ di.sourceTextureId = 0 ∨ di.targetTextureId = 0 then
    [Event.logE "renderFrame error, invalid DrawInfo"]
  else if di.viewportWidth ≤ 0 ∨ di.viewportHeight ≤ 0 then
    [Event.logE "renderFrame error, invalid target dimensions"]
  else
    [Event.bindFramebuffer di.fbo, Event.attachTexture di.targetTextureId] ++
    (if ¬ fbComplete then
      [Event.logE "FrameBuffer is not complete", Event.bindFramebuffer 0]
    else
      [Event.viewport di.viewportWidth di.viewportHeight, Event.draw,
       Event.bindFramebuffer 0])

end SM

namespace TM

/-- `NativeAndJavaSurfaceTexture` (TextureManager.cpp, lines 40-44). -/
structure NativeAndJavaSurfaceTexture where
  nativeSurfaceTexture : Nat
  jniSurfaceTexture : Nat
  deriving DecidableEq, Repr

/-- The global state of TextureManager.cpp: the pending-session map
`g_uninitializedSTCaptureSessionMap` (timestamp to session global ref), the
`g_registeredSurfaceTextureMap` (texture id to native/JNI pair), the
`g_drawInfosMap`, the shared `g_renderInfo` and whether
`g_startCaptureSessionMethodId` was resolved (TextureManager.cpp,
lines 34-52). -/
structure State where
  sessions : List (Int × Nat)
  surfaceTextures : List (Nat × NativeAndJavaSurfaceTexture)
  drawInfos : List (Nat × SM.DrawInfo)
  renderInfo : SM.GlobalRenderInfo
  methodIdOk : Bool
  deriving DecidableEq, Repr

/-- Models `Java_com_uralstech_ucamera_SurfaceTextureCaptureSession_queueSurfaceTextureCaptureSession`
(TextureManager.cpp, lines 170-191).  `newRef` is the result of
`env->NewGlobalRef` (`none` = null).  Re-registration under an existing
timestamp deletes the prior global reference and stores the new one. -/
def queueSurfaceTextureCaptureSession (s : State) (timeStamp : Int)
    (newRef : Option Nat) : State × List Event :=
  match newRef with
  | none => (s, [Event.logE "Could not create global reference for STCaptureSession"])
  | some globalRef =>
    match mfind s.sessions timeStamp with
    | some oldRef =>
      ({ s with sessions := mset s.sessions timeStamp globalRef },
       [Event.newGlobalRef globalRef, Event.deleteGlobalRef oldRef,
        Event.logI "Replaced existing STCaptureSession in map with new GlobalRef"])
    | none =>
      ({ s with sessions := mset s.sessions timeStamp globalRef },
       [Event.newGlobalRef globalRef,
        Event.logI "Added new STCaptureSession GlobalRef to map"])

/-- Models `Java_com_uralstech_ucamera_SurfaceTextureCaptureSession_registerSurfaceTextureForUpdates`
(TextureManager.cpp, lines 193-219).  `newRef` is the result of
`env->NewGlobalRef`; `newNative` the handle from
`ASurfaceTexture_fromSurfaceTexture`.  Re-registration releases the prior
native handle and global reference and stores the new pair. -/
def registerSurfaceTextureForUpdates (s : State) (textureId : Nat)
    (newRef : Option Nat) (newNative : Nat) : State × List Event :=
  match newRef with
  | none => (s, [Event.logE "Could not create global reference for SurfaceTexture"])
  | some globalRef =>
    let updated := mset s.surfaceTextures textureId ⟨newNative, globalRef⟩
    match mfind s.surfaceTextures textureId with
    | some old =>
      ({ s with surfaceTextures := updated },
       [Event.newGlobalRef globalRef,
        Event.releaseNativeST old.nativeSurfaceTexture,
        Event.deleteGlobalRef old.jniSurfaceTexture,
        Event.acquireNativeST newNative,
        Event.logI "Replaced existing SurfaceTexture in map with new GlobalRef"])
    | none =>
      ({ s with surfaceTextures := updated },
       [Event.newGlobalRef globalRef, Event.acquireNativeST newNative,
        Event.logI "Added new SurfaceTexture GlobalRef to map"])

/-- Models `Java_com_uralstech_ucamera_SurfaceTextureCaptureSession_deregisterSurfaceTextureForUpdates`
(TextureManager.cpp, lines 221-237): a missing key logs a soft error and
returns; a present entry has its native handle released and its global
reference deleted, then is erased. -/
def deregisterSurfaceTextureForUpdates (s : State) (textureId : Nat) :
    State × List Event :=
  match mfind s.surfaceTextures textureId with
  | none =>
    (s, [Event.logI "Unregistering SurfaceTexture from updates",
         Event.logE "Cannot deregister a SurfaceTexture that was never registered"])
  | some v =>
    ({ s with surfaceTextures := merase s.surfaceTextures textureId },
     [Event.logI "Unregistering SurfaceTexture from updates",
      Event.releaseNativeST v.nativeSurfaceTexture,
      Event.deleteGlobalRef v.jniSurfaceTexture])

/-- Models `JNI_OnUnload` (TextureManager.cpp, lines 85-113): when a JNIEnv is
available, deletes every pending-session global reference and, for every
registered surface texture, releases the native handle and deletes the
global reference, clearing both maps.  `envOk` is whether `GetEnv`
succeeded. -/
def jniOnUnload (s : State) (envOk : Bool) : State × List Event :=
  if ¬ envOk then
    ({ s with methodIdOk := false },
     [Event.logE "Could not properly dispose the session map, no JNIEnv"])
  else
    ({ s with methodIdOk := false, sessions := [], surfaceTextures := [] },
     (s.sessions.map fun p => Event.deleteGlobalRef p.2) ++
       (s.surfaceTextures.map fun p =>
         [Event.releaseNativeST p.2.nativeSurfaceTexture,
          Event.deleteGlobalRef p.2.jniSurfaceTexture]).flatten)

/-- `TextureSetupData` (TextureManager.cpp, lines 239-246), minus the raw
callback pointer. -/
structure TextureSetupData where
  unityTextureId : Nat
  width : Int
  height : Int
  timeStamp : Int
  deriving DecidableEq, Repr

/-- Externally determined outcomes of one `setupTextureNative` call. -/
structure SetupEnv where
  smenv : SM.SetupEnv
  newTextureId : Nat
  fboGenId : Nat
  attachResult : Option Bool
  jniExceptionOc : Bool
  deriving DecidableEq, Repr

/-- Models `setupTextureNative` (TextureManager.cpp, lines 303-396), the
ALLOCATE flow of this revision: checks the method id and the shared render
info, generates a texture and a framebuffer, stores a `DrawInfo`, then
consumes the pending session for the timestamp — cleaning up the fresh GL
objects and the `DrawInfo` entry when no session is found or no JNIEnv is
available.  The consumed global reference is deleted only when the callback
raised no JNI exception. -/
def setupTextureNative (s : State) (d : TextureSetupData) (e : SetupEnv) :
    State × List Event :=
  if ¬ s.methodIdOk then
    (s, [Event.logE "missing methodId", Event.doneCb])
  else
    match SM.checkGlobalRenderInfo s.renderInfo e.smenv with
    | (false, ri', t0) =>
      ({ s with renderInfo := ri' },
       t0 ++ [Event.logE "failed setup of renderInfo", Event.doneCb])
    | (true, ri', t0) =>
      let s1 := { s with renderInfo := ri' }
      if e.newTextureId = 0 then
        (s1, t0 ++ [Event.logE "texture could not be generated", Event.doneCb])
      else
        let t := e.newTextureId
        let tGen := [Event.genTexture t]
        match SM.createFrameBuffer e.fboGenId with
        | (fbo, tFb) =>
          let di : SM.DrawInfo := ⟨t, d.unityTextureId, fbo, d.width, d.height⟩
          if fbo = 0 then
            (s1, t0 ++ tGen ++ tFb ++
              [Event.logE "FrameBuffer object could not be generated",
               Event.delTexture t, Event.doneCb])
          else
            let repl : State × List Event :=
              match mfind s1.drawInfos t with
              | some old =>
                ({ s1 with drawInfos := mset s1.drawInfos t di },
                 SM.cleanupFrameBuffer old.fbo ++
                   (if old.sourceTextureId ≠ 0 then
                     [Event.delTexture old.sourceTextureId] else []) ++
                   [Event.logI "Released old DrawInfo and set new one"])
              | none =>
                ({ s1 with drawInfos := mset s1.drawInfos t di },
                 [Event.logI "Set new DrawInfo"])
            match repl with
            | (s2, tRepl) =>
              let pre := t0 ++ tGen ++ tFb ++ tRepl
              match mfind s2.sessions d.timeStamp with
              | none =>
                ({ s2 with drawInfos := merase s2.drawInfos t },
                 pre ++ [Event.logE "no uninitialized STCaptureSessions found for timeStamp",
                         Event.delTexture t] ++
                   SM.cleanupFrameBuffer fbo ++ [Event.doneCb])
              | some sessionRef =>
                match e.attachResult with
                | none =>
                  ({ s2 with drawInfos := merase s2.drawInfos t },
                   pre ++ [Event.logE "JNIEnv is null",
                           Event.delTexture t] ++
                     SM.cleanupFrameBuffer fbo ++ [Event.doneCb])
                | some _ =>
                  if e.jniExceptionOc then
                    (s2, pre ++ [Event.callStartSession sessionRef t,
                                 Event.logE "Could not initialize the STCaptureSession due to error",
                                 Event.doneCb])
                  else
                    ({ s2 with sessions := merase s2.sessions d.timeStamp },
                     pre ++ [Event.callStartSession sessionRef t,
                             Event.logI "Successfully called STCaptureSession method",
                             Event.deleteGlobalRef sessionRef, Event.doneCb])

end TM

namespace Helper

/-- `SurfaceTexture` (STCaptureSessionHelper.cpp, lines 42-45). -/
structure SurfaceTexture where
  java : Nat
  native : Nat
  deriving DecidableEq, Repr

/-- The global state of STCaptureSessionHelper.cpp: `g_registeredSessions`
(timestamp to session global ref), `g_surfaceTextures` (texture id to
java/native pair), `g_renderers` (texture id to renderer instance) and the
shared `Renderer` statics (STCaptureSessionHelper.cpp, lines 33-48). -/
structure State where
  registeredSessions : List (Int × Nat)
  surfaceTextures : List (Nat × SurfaceTexture)
  renderers : List (Nat × Rend.RendererState)
  rstatics : Rend.RendererStatics
  deriving DecidableEq, Repr

/-- Models `Java_com_uralstech_ucamera_STCaptureSessionWrapper_registerCaptureSessionNative`
(STCaptureSessionHelper.cpp, lines 111-129): an already-registered timestamp
is rejected with `false` before any global reference is created; otherwise a
global reference is created (`newRef`, `none` = null) and stored. -/
def registerCaptureSessionNative (s : State) (timestamp : Int)
    (newRef : Option Nat) : Bool × State × List Event :=
  match mfind s.registeredSessions timestamp with
  | some _ =>
    (false, s, [Event.logE "Tried to register capture session twice"])
  | none =>
    match newRef with
    | none =>
      (false, s,
       [Event.logE "Could not register capture session, no global reference"])
    | some globalRef =>
      (true,
       { s with registeredSessions := mset s.registeredSessions timestamp globalRef },
       [Event.newGlobalRef globalRef])

/-- Models `Java_com_uralstech_ucamera_STCaptureSessionWrapper_tryDeregisterCaptureSessionNative`
(STCaptureSessionHelper.cpp, lines 131-140): a present entry is released and
erased; a missing key silently does nothing (only the entry info-log line is
emitted — no error log). -/
def tryDeregisterCaptureSessionNative (s : State) (timestamp : Int) :
    State × List Event :=
  match mfind s.registeredSessions timestamp with
  | some globalRef =>
    ({ s with registeredSessions := merase s.registeredSessions timestamp },
     [Event.logI "Trying to deregister capture session",
      Event.deleteGlobalRef globalRef])
  | none =>
    (s, [Event.logI "Trying to deregister capture session"])

/-- Models `Java_com_uralstech_ucamera_STCaptureSessionWrapper_registerSurfaceTextureForUpdates`
(STCaptureSessionHelper.cpp, lines 142-160): an already-registered texture id
is rejected with `false`; otherwise the global reference and the native
handle are acquired and stored as a pair. -/
def registerSurfaceTextureForUpdates (s : State) (textureId : Nat)
    (newRef : Option Nat) (newNative : Nat) : Bool × State × List Event :=
  match mfind s.surfaceTextures textureId with
  | some _ =>
    (false, s, [Event.logE "Tried to register capture session twice"])
  | none =>
    match newRef with
    | none =>
      (false, s,
       [Event.logE "Could not create global reference for surface texture"])
    | some globalRef =>
      let updated := mset s.surfaceTextures textureId ⟨globalRef, newNative⟩
      (true,
       { s with surfaceTextures := updated },
       [Event.newGlobalRef globalRef, Event.acquireNativeST newNative])

/-- Models `Java_com_uralstech_ucamera_STCaptureSessionWrapper_deregisterSurfaceTextureForUpdates`
(STCaptureSessionHelper.cpp, lines 161-173): a present entry has its native
handle released and its global reference deleted together, then is erased; a
missing key silently does nothing (no error log). -/
def deregisterSurfaceTextureForUpdates (s : State) (textureId : Nat) :
    State × List Event :=
  match mfind s.surfaceTextures textureId with
  | some v =>
    ({ s with surfaceTextures := merase s.surfaceTextures textureId },
     [Event.logI "Deregistering surface texture",
      Event.releaseNativeST v.native,
      Event.deleteGlobalRef v.java])
  | none =>
    (s, [Event.logI "Deregistering surface texture"])

/-- Models `JNI_OnUnload` (STCaptureSessionHelper.cpp, lines 77-109): when a
JNIEnv is available, deletes every registered-session global reference,
releases every surface texture pair, deletes the renderer objects (plain
`delete`, no `dispose`), and clears all three maps. -/
def jniOnUnload (s : State) (envOk : Bool) : State × List Event :=
  if ¬ envOk then
    (s, [Event.logE "JNIEnv could not be retrieved for deinitialization"])
  else
    ({ s with registeredSessions := [], surfaceTextures := [], renderers := [] },
     (s.registeredSessions.map fun p => Event.deleteGlobalRef p.2) ++
       [Event.logI "Registered sessions disposed"] ++
       (s.surfaceTextures.map fun p =>
         [Event.releaseNativeST p.2.native,
          Event.deleteGlobalRef p.2.java]).flatten)

/-- `NativeSetupData` (STCaptureSessionHelper.cpp, lines 175-182), minus the
raw callback pointer. -/
structure NativeSetupData where
  unityTexture : Nat
  width : Int
  height : Int
  timestamp : Int
  deriving DecidableEq, Repr

/-- Externally determined outcomes of one `setupNativeTextures` call. -/
structure SetupEnv where
  rsetup : Rend.SetupEnv
  attachResult : Option Bool
  callResult : Bool
  jniExceptionOc : Bool
  deriving DecidableEq, Repr

/-- Models `setupNativeTextures` (STCaptureSessionHelper.cpp, lines 184-255),
the ALLOCATE flow of this revision: the pending session is looked up FIRST —
before any GL object is created — and a miss reports failure immediately.
On a hit a renderer is constructed and set up; after the
`startCaptureSession` call the session entry is erased and its global
reference deleted regardless of the call's outcome. -/
def setupNativeTextures (s : State) (d : NativeSetupData) (e : SetupEnv) :
    State × List Event :=
  match mfind s.registeredSessions d.timestamp with
  | none =>
    (s, [Event.logE "No registered session found for timestamp",
         Event.doneCbFlags true false d.unityTexture 0 false])
  | some sessionRef =>
    let r0 := Rend.mkRenderer d.unityTexture d.width d.height
    match Rend.setup r0 s.rstatics e.rsetup with
    | (none, _, st', t1) =>
      ({ s with rstatics := st' },
       t1 ++ [Event.logE "Could not set up renderer",
              Event.doneCbFlags true false d.unityTexture 0 false])
    | (some newTexture, r', st', t1) =>
      match mfind s.renderers newTexture with
      | some _ =>
        match Rend.dispose r' st' with
        | (_, st2, t2) =>
          ({ s with rstatics := st2 },
           t1 ++ [Event.logE "Tried to register renderer twice"] ++ t2 ++
             [Event.doneCbFlags true false d.unityTexture 0 false])
      | none =>
        let s1 := { s with renderers := mset s.renderers newTexture r',
                           rstatics := st' }
        match e.attachResult with
        | none =>
          match Rend.dispose r' st' with
          | (_, st2, t2) =>
            ({ s1 with renderers := merase s1.renderers newTexture,
                       rstatics := st2 },
             t1 ++ [Event.logE "A reference to the JNI could not be retrieved"] ++
               t2 ++ [Event.doneCbFlags true false d.unityTexture 0 false])
        | some _ =>
          let erased := merase s1.registeredSessions d.timestamp
          let s2 := { s1 with registeredSessions := erased }
          let callT := [Event.callStartSession sessionRef newTexture,
                        Event.deleteGlobalRef sessionRef]
          if e.jniExceptionOc ∨ ¬ e.callResult then
            (s2, t1 ++ callT ++
              [Event.logE "A JNI or script exception occurred",
               Event.doneCbFlags false false d.unityTexture newTexture true])
          else
            (s2, t1 ++ callT ++
              [Event.logI "Renderer is ready for capture session",
               Event.doneCbFlags true true d.unityTexture newTexture true])

end Helper

/-- Number of entries of an association-list map holding a given key. -/
def countKey {K V : Type} [DecidableEq K] (m : List (K × V)) (k : K) : Nat :=
  (m.filter fun p => p.1 = k).length

/-- A sample TextureManager state: session 7 pending under timestamp 100, the
surface pair (native 31, jni 8) registered under texture id 5. -/
def tmSample : TM.State :=
  ⟨[(100, 7)], [(5, ⟨31, 8⟩)], [], SM.blankRenderInfo, true⟩

/-- A sample STCaptureSessionHelper state: session 9 registered under
timestamp 100, the surface pair (java 32, native 10) under texture id 5. -/
def hSample : Helper.State :=
  ⟨[(100, 9)], [(5, ⟨32, 10⟩)], [], ⟨1, 4, 0, 0, 2, 3⟩⟩

/-- The empty STCaptureSessionHelper state. -/
def hBlank : Helper.State := ⟨[], [], [], ⟨0, 0, 0, 0, 0, 0⟩⟩

/-- Events touching only shader/program/buffer objects and logs: everything a
`setupGlobals`-style compile path may emit (no texture or framebuffer
creation or deletion, no JNI activity, no callbacks). -/
def quietEvent : Event → Bool
  | Event.getShaderLog _ => true
  | Event.getProgramLog _ => true
  | Event.delShader _ => true
  | Event.delProgram _ => true
  | Event.delVertexArray _ => true
  | Event.delBuffer _ => true
  | Event.attachShaderEv _ _ => true
  | Event.linkAttempt _ => true
  | Event.logE _ => true
  | Event.logI _ => true
  | _ => false

/-- GL-side events and logs only: no JNI activity (references, native
handles, session callback) and no done-callback. -/
def glOnlyEvent : Event → Bool
  | Event.newGlobalRef _ => false
  | Event.deleteGlobalRef _ => false
  | Event.releaseNativeST _ => false
  | Event.acquireNativeST _ => false
  | Event.callStartSession _ _ => false
  | Event.doneCb => false
  | Event.doneCbFlags _ _ _ _ _ => false
  | Event.doneCbTex _ _ => false
  | _ => true

theorem mfind_mset_self {K V : Type} [DecidableEq K] (m : List (K × V)) (k : K)
    (v : V) : mfind (mset m k v) k = some v := by
  induction m with
  | nil => simp [mset, mfind]
  | cons p rest ih =>
    obtain ⟨k', v'⟩ := p
    by_cases h : k' = k <;> simp [mset, mfind, h, ih]

theorem mset_keys_of_found {K V : Type} [DecidableEq K] (m : List (K × V))
    (k : K) (v : V) (h : (mfind m k).isSome) :
    (mset m k v).map Prod.fst = m.map Prod.fst := by
  induction m with
  | nil => simp [mfind] at h
  | cons p rest ih =>
    obtain ⟨k', v'⟩ := p
    by_cases hk : k' = k
    · simp [mset, hk]
    · simp [mfind, hk] at h
      simp [mset, hk, ih h]

theorem merase_mset_of_none {K V : Type} [DecidableEq K] (m : List (K × V))
    (k : K) (v : V) (h : mfind m k = none) : merase (mset m k v) k = m := by
  induction m with
  | nil => simp [mset, merase]
  | cons p rest ih =>
    obtain ⟨k', v'⟩ := p
    by_cases hk : k' = k
    · simp [mfind, hk] at h
    · simp [mfind, hk] at h
      simp [mset, merase, hk, ih h]

theorem countKey_eq_one_of_nodup {K V : Type} [DecidableEq K]
    {m : List (K × V)} {k : K} (hnd : (m.map Prod.fst).Nodup)
    (h : (mfind m k).isSome) : countKey m k = 1 := by
  induction m with
  | nil => simp [mfind] at h
  | cons p rest ih =>
    obtain ⟨k', v'⟩ := p
    simp only [List.map_cons, List.nodup_cons] at hnd
    by_cases hk : k' = k
    · subst hk
      have hz : (rest.filter fun p => p.1 = k').length = 0 := by
        rw [List.length_eq_zero]
        rw [List.filter_eq_nil]
        intro q hq
        simp only [decide_eq_true_eq]
        intro hq1
        exact hnd.1 (hq1 ▸ List.mem_map_of_mem Prod.fst hq)
      simp [countKey, List.filter, hz]
    · simp only [mfind, if_neg hk] at h
      have := ih hnd.2 h
      simp only [countKey] at this ⊢
      simp [List.filter, hk, this]

/-- **C1** (corrected).  Re-registration under an already-present key: in the
TextureManager revision the prior global reference (and, for surface
textures, the prior native handle) is released — exactly once, and nothing
else is released — and the entry is replaced by the new reference, leaving
exactly one entry under the key; in the STCaptureSessionHelper revision
registering a present key is rejected with `false`, releases nothing, and
leaves the store unchanged, so the single prior reference remains the only
live one.  In both revisions and both stores there is no double-free and no
leak. -/
theorem reregistration_semantics
    (sTM : TM.State) (ts : Int) (oldRef newRef : Nat)
    (tid newRef2 newNat : Nat) (oldPair : TM.NativeAndJavaSurfaceTexture)
    (sH : Helper.State) (ts2 : Int) (r2 : Nat) (tid2 nn2 : Nat)
    (h1 : mfind sTM.sessions ts = some oldRef)
    (hnd1 : (sTM.sessions.map Prod.fst).Nodup)
    (h2 : mfind sTM.surfaceTextures tid = some oldPair)
    (hnd2 : (sTM.surfaceTextures.map Prod.fst).Nodup)
    (h3 : (mfind sH.registeredSessions ts2).isSome)
    (h4 : (mfind sH.surfaceTextures tid2).isSome) :
    (refDeletes (TM.queueSurfaceTextureCaptureSession sTM ts (some newRef)).2 = [oldRef] ∧
      mfind (TM.queueSurfaceTextureCaptureSession sTM ts (some newRef)).1.sessions ts = some newRef ∧
      countKey (TM.queueSurfaceTextureCaptureSession sTM ts (some newRef)).1.sessions ts = 1) ∧
    (refDeletes (TM.registerSurfaceTextureForUpdates sTM tid (some newRef2) newNat).2 = [oldPair.jniSurfaceTexture] ∧
      nativeReleases (TM.registerSurfaceTextureForUpdates sTM tid (some newRef2) newNat).2 = [oldPair.nativeSurfaceTexture] ∧
      mfind (TM.registerSurfaceTextureForUpdates sTM tid (some newRef2) newNat).1.surfaceTextures tid = some ⟨newNat, newRef2⟩ ∧
      countKey (TM.registerSurfaceTextureForUpdates sTM tid (some newRef2) newNat).1.surfaceTextures tid = 1) ∧
    ((Helper.registerCaptureSessionNative sH ts2 (some r2)).1 = false ∧
      (Helper.registerCaptureSessionNative sH ts2 (some r2)).2.1 = sH ∧
      refDeletes (Helper.registerCaptureSessionNative sH ts2 (some r2)).2.2 = []) ∧
    ((Helper.registerSurfaceTextureForUpdates sH tid2 (some r2) nn2).1 = false ∧
      (Helper.registerSurfaceTextureForUpdates sH tid2 (some r2) nn2).2.1 = sH ∧
      refDeletes (Helper.registerSurfaceTextureForUpdates sH tid2 (some r2) nn2).2.2 = [] ∧
      nativeReleases (Helper.registerSurfaceTextureForUpdates sH tid2 (some r2) nn2).2.2 = []) := by
  obtain ⟨g3, hg3⟩ := Option.isSome_iff_exists.mp h3
  obtain ⟨g4, hg4⟩ := Option.isSome_iff_exists.mp h4
  have hk1 : (mset sTM.sessions ts newRef).map Prod.fst = sTM.sessions.map Prod.fst :=
    mset_keys_of_found _ _ _ (by simp [h1])
  have hc1 : countKey (mset sTM.sessions ts newRef) ts = 1 :=
    countKey_eq_one_of_nodup (hk1 ▸ hnd1) (by simp [mfind_mset_self])
  have hk2 : (mset sTM.surfaceTextures tid (⟨newNat, newRef2⟩ : TM.NativeAndJavaSurfaceTexture)).map Prod.fst = sTM.surfaceTextures.map Prod.fst :=
    mset_keys_of_found _ _ _ (by simp [h2])
  have hc2 : countKey (mset sTM.surfaceTextures tid (⟨newNat, newRef2⟩ : TM.NativeAndJavaSurfaceTexture)) tid = 1 :=
    countKey_eq_one_of_nodup (hk2 ▸ hnd2) (by simp [mfind_mset_self])
  refine ⟨⟨?_, ?_, ?_⟩, ⟨?_, ?_, ?_, ?_⟩, ⟨?_, ?_, ?_⟩, ?_, ?_, ?_, ?_⟩ <;>
    simp [TM.queueSurfaceTextureCaptureSession, TM.registerSurfaceTextureForUpdates,
      Helper.registerCaptureSessionNative, Helper.registerSurfaceTextureForUpdates,
      h1, h2, hg3, hg4, refDeletes, nativeReleases, mfind_mset_self, hc1, hc2]

/-- C1 counterexample: in the STCaptureSessionHelper revision, registering
timestamp 100 twice (refs 7 then 8) releases nothing and keeps the prior
reference 7 — not the claimed release-one-and-replace. -/
theorem reregistration_claim_counterexample :
    ¬ (refDeletes (Helper.registerCaptureSessionNative
          (Helper.registerCaptureSessionNative hBlank 100 (some 7)).2.1
          100 (some 8)).2.2 = [7] ∧
       mfind (Helper.registerCaptureSessionNative
          (Helper.registerCaptureSessionNative hBlank 100 (some 7)).2.1
          100 (some 8)).2.1.registeredSessions 100 = some 8) := by
  decide

/-- Witness for `reregistration_semantics` at concrete states. -/
theorem reregistration_semantics_witness :
    refDeletes (TM.queueSurfaceTextureCaptureSession tmSample 100 (some 20)).2 = [7] ∧
    (Helper.registerCaptureSessionNative hSample 100 (some 20)).2.1 = hSample := by
  have h := reregistration_semantics tmSample 100 7 20 5 21 33 ⟨31, 8⟩ hSample 100 20 5 34
    (by decide) (by decide) (by decide) (by decide) (by decide) (by decide)
  exact ⟨h.1.1, h.2.2.1.2.1⟩

/-- **C8** (corrected).  Deregistering a key that is not registered is a no-op
in every revision: the state is returned unchanged and no global reference
and no native handle is released.  The TextureManager revision additionally
logs a soft error, while both STCaptureSessionHelper deregistration entry
points return silently, logging no error. -/
theorem deregister_missing_noop
    (sTM : TM.State) (tid : Nat) (sH : Helper.State) (ts : Int) (tid2 : Nat)
    (h1 : mfind sTM.surfaceTextures tid = none)
    (h2 : mfind sH.registeredSessions ts = none)
    (h3 : mfind sH.surfaceTextures tid2 = none) :
    ((TM.deregisterSurfaceTextureForUpdates sTM tid).1 = sTM ∧
      refDeletes (TM.deregisterSurfaceTextureForUpdates sTM tid).2 = [] ∧
      nativeReleases (TM.deregisterSurfaceTextureForUpdates sTM tid).2 = [] ∧
      ((TM.deregisterSurfaceTextureForUpdates sTM tid).2.filter isErrLog).length = 1) ∧
    Helper.tryDeregisterCaptureSessionNative sH ts =
      (sH, [Event.logI "Trying to deregister capture session"]) ∧
    Helper.deregisterSurfaceTextureForUpdates sH tid2 =
      (sH, [Event.logI "Deregistering surface texture"]) := by
  refine ⟨⟨?_, ?_, ?_, ?_⟩, ?_, ?_⟩ <;>
    simp [TM.deregisterSurfaceTextureForUpdates, Helper.tryDeregisterCaptureSessionNative,
      Helper.deregisterSurfaceTextureForUpdates, h1, h2, h3,
      refDeletes, nativeReleases, isErrLog, List.filter]

/-- C8 counterexample: deregistering the never-registered timestamp 42 in the
STCaptureSessionHelper revision logs no error at all, contradicting the
claimed soft-error log. -/
theorem deregister_missing_claim_counterexample :
    ¬ (0 < ((Helper.tryDeregisterCaptureSessionNative hBlank 42).2.filter isErrLog).length) := by
  decide

/-- Witness for `deregister_missing_noop` at concrete states. -/
theorem deregister_missing_noop_witness :
    (TM.deregisterSurfaceTextureForUpdates tmSample 9).1 = tmSample ∧
    Helper.tryDeregisterCaptureSessionNative hSample 7 =
      (hSample, [Event.logI "Trying to deregister capture session"]) := by
  have h := deregister_missing_noop tmSample 9 hSample 7 9
    (by decide) (by decide) (by decide)
  exact ⟨h.1.1, h.2.1⟩

/-- **C10** (confirmed).  At every registration entry point of both revisions,
a failed `NewGlobalRef` (modelled as `none`) makes the operation return
early with a `false`/void result, an error log, no release of anything, and
the registry stores untouched.  (In the STCaptureSessionHelper revision
`NewGlobalRef` is only reached when the key is absent, hence the two
absence hypotheses.) -/
theorem globalref_failure_rollback
    (sTM : TM.State) (ts : Int) (tid nn : Nat)
    (sH : Helper.State) (ts2 : Int) (tid2 nn2 : Nat)
    (h2 : mfind sH.registeredSessions ts2 = none)
    (h3 : mfind sH.surfaceTextures tid2 = none) :
    TM.queueSurfaceTextureCaptureSession sTM ts none =
      (sTM, [Event.logE "Could not create global reference for STCaptureSession"]) ∧
    TM.registerSurfaceTextureForUpdates sTM tid none nn =
      (sTM, [Event.logE "Could not create global reference for SurfaceTexture"]) ∧
    Helper.registerCaptureSessionNative sH ts2 none =
      (false, sH, [Event.logE "Could not register capture session, no global reference"]) ∧
    Helper.registerSurfaceTextureForUpdates sH tid2 none nn2 =
      (false, sH, [Event.logE "Could not create global reference for surface texture"]) := by
  refine ⟨?_, ?_, ?_, ?_⟩ <;>
    simp [TM.queueSurfaceTextureCaptureSession, TM.registerSurfaceTextureForUpdates,
      Helper.registerCaptureSessionNative, Helper.registerSurfaceTextureForUpdates, h2, h3]

/-- Witness for `globalref_failure_rollback` at concrete states. -/
theorem globalref_failure_rollback_witness :
    Helper.registerCaptureSessionNative hBlank 1 none =
      (false, hBlank, [Event.logE "Could not register capture session, no global reference"]) :=
  (globalref_failure_rollback tmSample 1 2 3 hBlank 1 2 3 (by decide) (by decide)).2.2.1

/-- **C9** (confirmed).  `Renderer::dispose` is idempotent: every first call
leaves the instance marked disposed, and a second call returns the instance
fields and the static fields unchanged and performs no GL deletion and no
counter decrement (its event trace is empty).  Hence
`dispose; dispose` has the same effect on state as a single `dispose`. -/
theorem dispose_idempotent (r : Rend.RendererState) (st : Rend.RendererStatics) :
    (Rend.dispose r st).1.disposed = true ∧
    Rend.dispose (Rend.dispose r st).1 (Rend.dispose r st).2.1 =
      ((Rend.dispose r st).1, (Rend.dispose r st).2.1, []) := by
  by_cases h : r.disposed
  · constructor
    · simp [Rend.dispose, h]
    · simp [Rend.dispose, h]
  · have h1 : (Rend.dispose r st).1.disposed = true := by
      simp only [Rend.dispose, if_neg h]
      split <;> rfl
    refine ⟨h1, ?_⟩
    rw [Rend.dispose]
    simp [h1]

/-- **C5** (confirmed).  When the framebuffer-completeness check fails after
attaching the target texture, both revisions issue no draw call, report a
per-call failure (`Renderer::render` returns `false`;
`ShaderManager::renderFrame` emits exactly one error log), and re-bind the
default framebuffer 0, which is the framebuffer left bound at the end of
the pass. -/
theorem fb_incomplete_no_draw_default_bound
    (r : Rend.RendererState) (st : Rend.RendererStatics)
    (ri : SM.GlobalRenderInfo) (di : SM.DrawInfo)
    (hprog : ri.program ≠ 0) (hvao : ri.vao ≠ 0)
    (htex : ri.textureUniformLocation ≠ -1) (hres : ri.resolutionUniformLocation ≠ -1)
    (hfbo : di.fbo ≠ 0) (hsrc : di.sourceTextureId ≠ 0) (htgt : di.targetTextureId ≠ 0)
    (hw : ¬ di.viewportWidth ≤ 0) (hh : ¬ di.viewportHeight ≤ 0) :
    ((Rend.render r st false).1 = false ∧
      Event.draw ∉ (Rend.render r st false).2 ∧
      finalFbBinding (Rend.render r st false).2 = some 0) ∧
    (Event.draw ∉ SM.renderFrame ri di false ∧
      finalFbBinding (SM.renderFrame ri di false) = some 0 ∧
      (SM.renderFrame ri di false).filter isErrLog =
        [Event.logE "FrameBuffer is not complete"]) := by
  refine ⟨⟨rfl, ?_, rfl⟩, ?_, ?_, ?_⟩ <;>
    simp [Rend.render, SM.renderFrame, hprog, hvao, htex, hres, hfbo, hsrc, htgt,
      hw, hh, finalFbBinding, fbBinds, isErrLog, List.filter]

/-- Witness for `fb_incomplete_no_draw_default_bound` at concrete data. -/
theorem fb_incomplete_no_draw_default_bound_witness :
    Event.draw ∉ SM.renderFrame ⟨1, 2, 3, 4, 5, 6⟩ ⟨1, 2, 3, 4, 4⟩ false ∧
    finalFbBinding (SM.renderFrame ⟨1, 2, 3, 4, 5, 6⟩ ⟨1, 2, 3, 4, 4⟩ false) = some 0 := by
  have h := fb_incomplete_no_draw_default_bound ⟨1, 0, 7, 4, 4, false⟩ ⟨1, 1, 0, 0, 2, 3⟩
    ⟨1, 2, 3, 4, 5, 6⟩ ⟨1, 2, 3, 4, 4⟩
    (by decide) (by decide) (by decide) (by decide) (by decide) (by decide) (by decide)
    (by decide) (by decide)
  exact ⟨h.2.1, h.2.2.1⟩

/-- **C6** (corrected).  Only the ShaderManager revision validates the target
dimensions: with width or height at most 0 its `renderFrame` fails
validation immediately (its whole trace is the one error log, so no draw
call and no GL state change happens).  The Renderer revision performs no
dimension validation at all: whenever the framebuffer is complete,
`Renderer::render` executes the draw call and returns `true` regardless of
its stored width and height. -/
theorem dimension_validation_revisions
    (ri : SM.GlobalRenderInfo) (di : SM.DrawInfo) (fbc : Bool)
    (r : Rend.RendererState) (st : Rend.RendererStatics)
    (hprog : ri.program ≠ 0) (hvao : ri.vao ≠ 0)
    (htex : ri.textureUniformLocation ≠ -1) (hres : ri.resolutionUniformLocation ≠ -1)
    (hfbo : di.fbo ≠ 0) (hsrc : di.sourceTextureId ≠ 0) (htgt : di.targetTextureId ≠ 0)
    (hdim : di.viewportWidth ≤ 0 ∨ di.viewportHeight ≤ 0) :
    SM.renderFrame ri di fbc = [Event.logE "renderFrame error, invalid target dimensions"] ∧
    Event.draw ∉ SM.renderFrame ri di fbc ∧
    Event.draw ∈ (Rend.render r st true).2 ∧
    (Rend.render r st true).1 = true := by
  have hsm : SM.renderFrame ri di fbc =
      [Event.logE "renderFrame error, invalid target dimensions"] := by
    simp [SM.renderFrame, hprog, hvao, htex, hres, hfbo, hsrc, htgt, hdim]
  refine ⟨hsm, ?_, ?_, rfl⟩
  · rw [hsm]; simp
  · simp [Rend.render]

/-- C6 counterexample: a Renderer-revision pass whose stored target
dimensions are 0 by 0 still executes the draw call when the framebuffer is
complete — the claimed validation does not exist in that revision. -/
theorem dimension_validation_claim_counterexample :
    ¬ (Event.draw ∉ (Rend.render ⟨1, 2, 3, 0, 0, false⟩ ⟨0, 0, 0, 0, 0, 0⟩ true).2) := by
  decide

/-- Witness for `dimension_validation_revisions` at concrete data. -/
theorem dimension_validation_revisions_witness :
    SM.renderFrame ⟨1, 2, 3, 4, 5, 6⟩ ⟨1, 2, 3, 0, 4⟩ true =
      [Event.logE "renderFrame error, invalid target dimensions"] :=
  (dimension_validation_revisions ⟨1, 2, 3, 4, 5, 6⟩ ⟨1, 2, 3, 0, 4⟩ true
    ⟨1, 0, 7, 4, 4, false⟩ ⟨1, 1, 0, 0, 2, 3⟩
    (by decide) (by decide) (by decide) (by decide) (by decide) (by decide) (by decide)
    (by decide)).1

theorem nativeReleases_append (a b : List Event) :
    nativeReleases (a ++ b) = nativeReleases a ++ nativeReleases b := by
  induction a with
  | nil => rfl
  | cons x rest ih => cases x <;> simp [nativeReleases, ih]

theorem refDeletes_append (a b : List Event) :
    refDeletes (a ++ b) = refDeletes a ++ refDeletes b := by
  induction a with
  | nil => rfl
  | cons x rest ih => cases x <;> simp [refDeletes, ih]

theorem texGens_append (a b : List Event) :
    texGens (a ++ b) = texGens a ++ texGens b := by
  induction a with
  | nil => rfl
  | cons x rest ih => cases x <;> simp [texGens, ih]

theorem texDels_append (a b : List Event) :
    texDels (a ++ b) = texDels a ++ texDels b := by
  induction a with
  | nil => rfl
  | cons x rest ih => cases x <;> simp [texDels, ih]

theorem fbGens_append (a b : List Event) :
    fbGens (a ++ b) = fbGens a ++ fbGens b := by
  induction a with
  | nil => rfl
  | cons x rest ih => cases x <;> simp [fbGens, ih]

theorem fbDels_append (a b : List Event) :
    fbDels (a ++ b) = fbDels a ++ fbDels b := by
  induction a with
  | nil => rfl
  | cons x rest ih => cases x <;> simp [fbDels, ih]

theorem nativeReleases_pairs {α : Type} (l : List α) (f g : α → Nat) :
    nativeReleases ((l.map fun p =>
      [Event.releaseNativeST (f p), Event.deleteGlobalRef (g p)]).flatten) = l.map f := by
  induction l with
  | nil => rfl
  | cons a rest ih =>
    simp only [List.map_cons, List.flatten_cons, nativeReleases_append, ih]
    rfl

theorem refDeletes_pairs {α : Type} (l : List α) (f g : α → Nat) :
    refDeletes ((l.map fun p =>
      [Event.releaseNativeST (f p), Event.deleteGlobalRef (g p)]).flatten) = l.map g := by
  induction l with
  | nil => rfl
  | cons a rest ih =>
    simp only [List.map_cons, List.flatten_cons, refDeletes_append, ih]
    rfl

theorem refDeletes_map_del {α : Type} (l : List α) (g : α → Nat) :
    refDeletes (l.map fun p => Event.deleteGlobalRef (g p)) = l.map g := by
  induction l with
  | nil => rfl
  | cons a rest ih =>
    simp only [List.map_cons, refDeletes, ih]

theorem nativeReleases_map_del {α : Type} (l : List α) (g : α → Nat) :
    nativeReleases (l.map fun p => Event.deleteGlobalRef (g p)) = [] := by
  induction l with
  | nil => rfl
  | cons a rest ih =>
    simp only [List.map_cons, nativeReleases, ih]

/-- **C4** (confirmed).  Every operation destroying a registered
surface-texture entry — explicit deregistration in either revision, and
bulk teardown in either revision's `JNI_OnUnload` — releases the entry's
native surface-texture handle and deletes its JVM global reference
together: the released-handle list and the deleted-reference list of the
trace are exactly the per-entry handle and reference (one release and one
delete per destroyed entry, never one without the other), and the destroyed
entries are removed from the store. -/
theorem surface_entry_release_paired
    (sTM : TM.State) (tid : Nat) (v : TM.NativeAndJavaSurfaceTexture)
    (sH : Helper.State) (tid2 : Nat) (w : Helper.SurfaceTexture)
    (h1 : mfind sTM.surfaceTextures tid = some v)
    (h2 : mfind sH.surfaceTextures tid2 = some w) :
    (nativeReleases (TM.deregisterSurfaceTextureForUpdates sTM tid).2 = [v.nativeSurfaceTexture] ∧
      refDeletes (TM.deregisterSurfaceTextureForUpdates sTM tid).2 = [v.jniSurfaceTexture] ∧
      (TM.deregisterSurfaceTextureForUpdates sTM tid).1.surfaceTextures =
        merase sTM.surfaceTextures tid) ∧
    (nativeReleases (TM.jniOnUnload sTM true).2 =
        sTM.surfaceTextures.map (fun p => p.2.nativeSurfaceTexture) ∧
      refDeletes (TM.jniOnUnload sTM true).2 =
        sTM.sessions.map Prod.snd ++
          sTM.surfaceTextures.map (fun p => p.2.jniSurfaceTexture) ∧
      (TM.jniOnUnload sTM true).1.surfaceTextures = []) ∧
    (nativeReleases (Helper.deregisterSurfaceTextureForUpdates sH tid2).2 = [w.native] ∧
      refDeletes (Helper.deregisterSurfaceTextureForUpdates sH tid2).2 = [w.java] ∧
      (Helper.deregisterSurfaceTextureForUpdates sH tid2).1.surfaceTextures =
        merase sH.surfaceTextures tid2) ∧
    (nativeReleases (Helper.jniOnUnload sH true).2 =
        sH.surfaceTextures.map (fun p => p.2.native) ∧
      refDeletes (Helper.jniOnUnload sH true).2 =
        sH.registeredSessions.map Prod.snd ++
          sH.surfaceTextures.map (fun p => p.2.java) ∧
      (Helper.jniOnUnload sH true).1.surfaceTextures = []) := by
  have tmu2 : (TM.jniOnUnload sTM true).2 =
      (sTM.sessions.map fun p => Event.deleteGlobalRef p.2) ++
        (sTM.surfaceTextures.map fun p =>
          [Event.releaseNativeST p.2.nativeSurfaceTexture,
           Event.deleteGlobalRef p.2.jniSurfaceTexture]).flatten := by
    simp [TM.jniOnUnload]
  have hu2 : (Helper.jniOnUnload sH true).2 =
      (sH.registeredSessions.map fun p => Event.deleteGlobalRef p.2) ++
        ([Event.logI "Registered sessions disposed"] ++
          (sH.surfaceTextures.map fun p =>
            [Event.releaseNativeST p.2.native,
             Event.deleteGlobalRef p.2.java]).flatten) := by
    simp [Helper.jniOnUnload]
  refine ⟨⟨?_, ?_, ?_⟩, ⟨?_, ?_, ?_⟩, ⟨?_, ?_, ?_⟩, ?_, ?_, ?_⟩
  · simp [TM.deregisterSurfaceTextureForUpdates, h1, nativeReleases]
  · simp [TM.deregisterSurfaceTextureForUpdates, h1, refDeletes]
  · simp [TM.deregisterSurfaceTextureForUpdates, h1]
  · rw [tmu2, nativeReleases_append, nativeReleases_map_del, nativeReleases_pairs]
    rfl
  · rw [tmu2, refDeletes_append, refDeletes_map_del, refDeletes_pairs]
  · simp [TM.jniOnUnload]
  · simp [Helper.deregisterSurfaceTextureForUpdates, h2, nativeReleases]
  · simp [Helper.deregisterSurfaceTextureForUpdates, h2, refDeletes]
  · simp [Helper.deregisterSurfaceTextureForUpdates, h2]
  · rw [hu2, nativeReleases_append, nativeReleases_append,
      nativeReleases_map_del, nativeReleases_pairs]
    rfl
  · rw [hu2, refDeletes_append, refDeletes_append,
      refDeletes_map_del, refDeletes_pairs]
    rfl
  · simp [Helper.jniOnUnload]

/-- Witness for `surface_entry_release_paired` at concrete states. -/
theorem surface_entry_release_paired_witness :
    nativeReleases (TM.deregisterSurfaceTextureForUpdates tmSample 5).2 = [31] ∧
    refDeletes (Helper.jniOnUnload hSample true).2 = [9, 32] := by
  have h := surface_entry_release_paired tmSample 5 ⟨31, 8⟩ hSample 5 ⟨32, 10⟩
    (by decide) (by decide)
  refine ⟨h.1.1, ?_⟩
  have := h.2.2.2.2.1
  simpa [hSample] using this

theorem filterMap_eq_nil_of_all {p : Event → Bool} {pick : Event → Option Nat}
    (hp : ∀ a, p a = true → pick a = none) :
    ∀ {tr : List Event}, tr.all p = true → tr.filterMap pick = [] := by
  intro tr h
  induction tr with
  | nil => rfl
  | cons a rest ih =>
    simp only [List.all_cons, Bool.and_eq_true] at h
    simp [List.filterMap_cons, hp a h.1, ih h.2]

theorem filter_eq_nil_of_all {p q : Event → Bool}
    (hp : ∀ a, p a = true → q a = false) :
    ∀ {tr : List Event}, tr.all p = true → tr.filter q = [] := by
  intro tr h
  induction tr with
  | nil => rfl
  | cons a rest ih =>
    simp only [List.all_cons, Bool.and_eq_true] at h
    simp [List.filter_cons, hp a h.1, ih h.2]

theorem all_glOnly_of_all_quiet {tr : List Event} (h : tr.all quietEvent = true) :
    tr.all glOnlyEvent = true := by
  induction tr with
  | nil => rfl
  | cons a rest ih =>
    simp only [List.all_cons, Bool.and_eq_true] at h ⊢
    exact ⟨by cases a <;> simp_all [quietEvent, glOnlyEvent], ih h.2⟩

theorem glOnly_no_sessionCall {tr : List Event} (h : tr.all glOnlyEvent = true) :
    tr.filter isSessionCall = [] :=
  filter_eq_nil_of_all (fun a => by cases a <;> simp [glOnlyEvent, isSessionCall]) h

theorem glOnly_no_doneCb {tr : List Event} (h : tr.all glOnlyEvent = true) :
    tr.filter isDoneCb = [] :=
  filter_eq_nil_of_all (fun a => by cases a <;> simp [glOnlyEvent, isDoneCb]) h

theorem glOnly_no_refDeletes {tr : List Event} (h : tr.all glOnlyEvent = true) :
    refDeletes tr = [] := by
  induction tr with
  | nil => rfl
  | cons a rest ih =>
    simp only [List.all_cons, Bool.and_eq_true] at h
    cases a <;> simp_all [glOnlyEvent, refDeletes]

theorem glOnly_no_nativeReleases {tr : List Event} (h : tr.all glOnlyEvent = true) :
    nativeReleases tr = [] := by
  induction tr with
  | nil => rfl
  | cons a rest ih =>
    simp only [List.all_cons, Bool.and_eq_true] at h
    cases a <;> simp_all [glOnlyEvent, nativeReleases]

theorem quiet_no_texGens {tr : List Event} (h : tr.all quietEvent = true) :
    texGens tr = [] := by
  induction tr with
  | nil => rfl
  | cons a rest ih =>
    simp only [List.all_cons, Bool.and_eq_true] at h
    cases a <;> simp_all [quietEvent, texGens]

theorem quiet_no_texDels {tr : List Event} (h : tr.all quietEvent = true) :
    texDels tr = [] := by
  induction tr with
  | nil => rfl
  | cons a rest ih =>
    simp only [List.all_cons, Bool.and_eq_true] at h
    cases a <;> simp_all [quietEvent, texDels]

theorem quiet_no_fbGens {tr : List Event} (h : tr.all quietEvent = true) :
    fbGens tr = [] := by
  induction tr with
  | nil => rfl
  | cons a rest ih =>
    simp only [List.all_cons, Bool.and_eq_true] at h
    cases a <;> simp_all [quietEvent, fbGens]

theorem quiet_no_fbDels {tr : List Event} (h : tr.all quietEvent = true) :
    fbDels tr = [] := by
  induction tr with
  | nil => rfl
  | cons a rest ih =>
    simp only [List.all_cons, Bool.and_eq_true] at h
    cases a <;> simp_all [quietEvent, fbDels]

theorem compileShaderSM_quiet (e : Rend.CompileEnv) :
    (SM.compileShader e).2.all quietEvent = true := by
  unfold SM.compileShader
  split_ifs <;> simp [quietEvent]

theorem cleanupGlobals_quiet (ri : SM.GlobalRenderInfo) :
    (SM.cleanupGlobals ri).2.all quietEvent = true := by
  unfold SM.cleanupGlobals
  split_ifs <;> simp [quietEvent]

theorem setupGlobals_quiet (e : SM.SetupEnv) :
    (SM.setupGlobals e).2.2.all quietEvent = true := by
  unfold SM.setupGlobals
  rcases hcv : SM.compileShader e.vertexCompile with ⟨ov, tv⟩
  have htv := compileShaderSM_quiet e.vertexCompile
  rw [hcv] at htv
  rcases ov with _ | vs
  · simp [htv, quietEvent]
  · rcases hcf : SM.compileShader e.fragmentCompile with ⟨og, tf⟩
    have htf := compileShaderSM_quiet e.fragmentCompile
    rw [hcf] at htf
    rcases og with _ | fs
    · simp [htv, htf, quietEvent]
    · split_ifs <;>
        simp_all [quietEvent, SM.cleanupGlobals, List.all_append] <;>
        split_ifs <;> simp_all [quietEvent]

theorem checkGlobalRenderInfo_quiet (ri : SM.GlobalRenderInfo) (e : SM.SetupEnv) :
    (SM.checkGlobalRenderInfo ri e).2.2.all quietEvent = true := by
  unfold SM.checkGlobalRenderInfo
  split_ifs with h
  · rfl
  · exact setupGlobals_quiet e

theorem rendCompile_glOnly (e : Rend.CompileEnv) :
    (Rend.compileShader e).2.all glOnlyEvent = true := by
  unfold Rend.compileShader
  split_ifs <;> simp [glOnlyEvent]

theorem rendLink_glOnly (st : Rend.RendererStatics) (vs fs : Nat) (e : Rend.LinkEnv) :
    (Rend.linkShaderProgram st vs fs e).2.2.all glOnlyEvent = true := by
  unfold Rend.linkShaderProgram
  split_ifs <;> simp [glOnlyEvent]

theorem rendGeometry_glOnly (st : Rend.RendererStatics) (e : Rend.GeometryEnv) :
    (Rend.setupGeometry st e).2.2.all glOnlyEvent = true := by
  unfold Rend.setupGeometry
  split_ifs <;> simp [glOnlyEvent]

theorem rendSetup_glOnly (r : Rend.RendererState) (st : Rend.RendererStatics)
    (e : Rend.SetupEnv) :
    (Rend.setup r st e).2.2.2.all glOnlyEvent = true := by
  unfold Rend.setup
  by_cases hsp : st.shaderProgram = 0
  · simp only [if_pos hsp]
    rcases hcv : Rend.compileShader e.vertexCompile with ⟨ov, tv⟩
    have htv := rendCompile_glOnly e.vertexCompile
    rw [hcv] at htv
    rcases ov with _ | vs
    · simpa using htv
    · rcases hcf : Rend.compileShader e.fragmentCompile with ⟨og, tf⟩
      have htf := rendCompile_glOnly e.fragmentCompile
      rw [hcf] at htf
      rcases og with _ | fs
      · simp [htv, htf, glOnlyEvent]
      · rcases hlk : Rend.linkShaderProgram st vs fs e.link with ⟨ls, stl, tl⟩
        have htl := rendLink_glOnly st vs fs e.link
        rw [hlk] at htl
        rcases ls with _ | _
        · simp only [hlk]
          simp_all [glOnlyEvent]
        · by_cases hvb : stl.vertexBufferObject = 0
          · rcases hge : Rend.setupGeometry stl e.geometry with ⟨gs, stg, tg⟩
            have htg := rendGeometry_glOnly stl e.geometry
            rw [hge] at htg
            rcases gs with _ | _ <;>
              · simp only [hlk, hge]
                simp_all [glOnlyEvent]
          · simp only [hlk]
            simp_all [glOnlyEvent]
  · simp only [if_neg hsp]
    by_cases hvb : st.vertexBufferObject = 0
    · rcases hge : Rend.setupGeometry st e.geometry with ⟨gs, stg, tg⟩
      have htg := rendGeometry_glOnly st e.geometry
      rw [hge] at htg
      rcases gs with _ | _ <;> simp [hvb, hge, htg, glOnlyEvent]
    · simp [hvb, glOnlyEvent]

theorem mfind_eq_none_of_not_mem_keys {K V : Type} [DecidableEq K]
    {m : List (K × V)} {k : K} (h : k ∉ m.map Prod.fst) : mfind m k = none := by
  induction m with
  | nil => rfl
  | cons p rest ih =>
    obtain ⟨k', v'⟩ := p
    simp only [List.map_cons, List.mem_cons] at h
    push_neg at h
    have hk : ¬ (k' = k) := fun hkk => h.1 hkk.symm
    simp only [mfind, if_neg hk]
    exact ih h.2

theorem mfind_merase_self {K V : Type} [DecidableEq K] (m : List (K × V)) (k : K)
    (hnd : (m.map Prod.fst).Nodup) : mfind (merase m k) k = none := by
  induction m with
  | nil => rfl
  | cons p rest ih =>
    obtain ⟨k', v'⟩ := p
    simp only [List.map_cons, List.nodup_cons] at hnd
    by_cases hk : k' = k
    · subst hk
      simp only [merase, if_pos rfl]
      exact mfind_eq_none_of_not_mem_keys hnd.1
    · simp only [merase, if_neg hk, mfind, if_neg hk]
      exact ih hnd.2

theorem cleanupFrameBuffer_glOnly (f : Nat) :
    (SM.cleanupFrameBuffer f).all glOnlyEvent = true := by
  unfold SM.cleanupFrameBuffer
  split_ifs <;> simp [glOnlyEvent]

/-- **C2** (corrected).  If a session is registered under the ALLOCATE event's
timestamp and GL setup succeeds AND the JNI hand-off is possible (a JNIEnv
is obtained; in the TextureManager revision additionally the callback raises
no JNI exception), then in both revisions exactly one `startCaptureSession`
callback is invoked, with a non-zero texture id as argument, afterwards the
pending-session store no longer contains the timestamp key, and the
consumed global reference is the only reference released — released exactly
once.  (In the STCaptureSessionHelper revision this holds even if the
callback throws or returns `false`.) -/
theorem allocate_handoff_success
    (sTM : TM.State) (d : TM.TextureSetupData) (e : TM.SetupEnv) (ref : Nat) (b : Bool)
    (sH : Helper.State) (d2 : Helper.NativeSetupData) (e2 : Helper.SetupEnv)
    (ref2 t2 : Nat) (b2 : Bool)
    (hnd : (sTM.sessions.map Prod.fst).Nodup)
    (hm : sTM.methodIdOk = true)
    (hri : (SM.checkGlobalRenderInfo sTM.renderInfo e.smenv).1 = true)
    (ht : e.newTextureId ≠ 0)
    (hf : e.fboGenId ≠ 0)
    (hs : mfind sTM.sessions d.timeStamp = some ref)
    (ha : e.attachResult = some b)
    (hx : e.jniExceptionOc = false)
    (hnd2 : (sH.registeredSessions.map Prod.fst).Nodup)
    (hs2 : mfind sH.registeredSessions d2.timestamp = some ref2)
    (hr2 : (Rend.setup (Rend.mkRenderer d2.unityTexture d2.width d2.height)
        sH.rstatics e2.rsetup).1 = some t2)
    (ht2 : t2 ≠ 0)
    (hfresh : mfind sH.renderers t2 = none)
    (ha2 : e2.attachResult = some b2) :
    ((TM.setupTextureNative sTM d e).2.filter isSessionCall =
        [Event.callStartSession ref e.newTextureId] ∧
      e.newTextureId ≠ 0 ∧
      refDeletes (TM.setupTextureNative sTM d e).2 = [ref] ∧
      mfind (TM.setupTextureNative sTM d e).1.sessions d.timeStamp = none) ∧
    ((Helper.setupNativeTextures sH d2 e2).2.filter isSessionCall =
        [Event.callStartSession ref2 t2] ∧
      t2 ≠ 0 ∧
      refDeletes (Helper.setupNativeTextures sH d2 e2).2 = [ref2] ∧
      mfind (Helper.setupNativeTextures sH d2 e2).1.registeredSessions
        d2.timestamp = none) := by
  rcases hcg : SM.checkGlobalRenderInfo sTM.renderInfo e.smenv with ⟨ok, ri', t0⟩
  rw [hcg] at hri
  simp only at hri
  subst hri
  have ht0q := checkGlobalRenderInfo_quiet sTM.renderInfo e.smenv
  rw [hcg] at ht0q
  simp only at ht0q
  have ht0g := all_glOnly_of_all_quiet ht0q
  rcases hrsu : Rend.setup (Rend.mkRenderer d2.unityTexture d2.width d2.height)
      sH.rstatics e2.rsetup with ⟨res, r', st', t1⟩
  rw [hrsu] at hr2
  simp only at hr2
  subst hr2
  have ht1g := rendSetup_glOnly (Rend.mkRenderer d2.unityTexture d2.width d2.height)
    sH.rstatics e2.rsetup
  rw [hrsu] at ht1g
  simp only at ht1g
  have hEq : ∃ (s2 : TM.State) (tRepl : List Event),
      s2.sessions = sTM.sessions ∧ tRepl.all glOnlyEvent = true ∧
      TM.setupTextureNative sTM d e =
        ({ s2 with sessions := merase s2.sessions d.timeStamp },
          t0 ++ Event.genTexture e.newTextureId :: Event.genFramebuffer e.fboGenId ::
            (tRepl ++ [Event.callStartSession ref e.newTextureId,
              Event.logI "Successfully called STCaptureSession method",
              Event.deleteGlobalRef ref, Event.doneCb])) := by
    rcases hdi : mfind sTM.drawInfos e.newTextureId with _ | old
    · refine ⟨⟨sTM.sessions, sTM.surfaceTextures,
        mset sTM.drawInfos e.newTextureId
          ⟨e.newTextureId, d.unityTextureId, e.fboGenId, d.width, d.height⟩,
        ri', sTM.methodIdOk⟩,
        [Event.logI "Set new DrawInfo"], rfl, rfl, ?_⟩
      simp [TM.setupTextureNative, hm, hcg, ht, hf, hs, ha, hx, hdi,
        SM.createFrameBuffer]
    · refine ⟨⟨sTM.sessions, sTM.surfaceTextures,
        mset sTM.drawInfos e.newTextureId
          ⟨e.newTextureId, d.unityTextureId, e.fboGenId, d.width, d.height⟩,
        ri', sTM.methodIdOk⟩,
        SM.cleanupFrameBuffer old.fbo ++
          ((if old.sourceTextureId ≠ 0 then [Event.delTexture old.sourceTextureId] else []) ++
            [Event.logI "Released old DrawInfo and set new one"]), rfl, ?_, ?_⟩
      · rw [List.all_append, List.all_append]
        refine Bool.and_eq_true_iff.mpr ⟨cleanupFrameBuffer_glOnly old.fbo, ?_⟩
        refine Bool.and_eq_true_iff.mpr ⟨?_, by simp [glOnlyEvent]⟩
        split_ifs <;> simp [glOnlyEvent]
      · simp [TM.setupTextureNative, hm, hcg, ht, hf, hs, ha, hx, hdi,
          SM.createFrameBuffer]
  obtain ⟨s2, tRepl, hsess, hgq, hres⟩ := hEq
  constructor
  · rw [hres]
    refine ⟨?_, ht, ?_, ?_⟩
    · simp only [List.filter_append, List.filter_cons, List.filter_nil,
        glOnly_no_sessionCall ht0g, glOnly_no_sessionCall hgq]
      simp [isSessionCall]
    · simp only [refDeletes_append, refDeletes,
        glOnly_no_refDeletes ht0g, glOnly_no_refDeletes hgq]
      rfl
    · simp only [hsess]
      exact mfind_merase_self _ _ hnd
  · have hHeq : Helper.setupNativeTextures sH d2 e2 =
        ((⟨merase sH.registeredSessions d2.timestamp, sH.surfaceTextures,
            mset sH.renderers t2 r', st'⟩ : Helper.State),
          t1 ++ Event.callStartSession ref2 t2 :: Event.deleteGlobalRef ref2 ::
            (if e2.jniExceptionOc ∨ ¬ e2.callResult = true then
              [Event.logE "A JNI or script exception occurred",
               Event.doneCbFlags false false d2.unityTexture t2 true]
            else
              [Event.logI "Renderer is ready for capture session",
               Event.doneCbFlags true true d2.unityTexture t2 true])) := by
      by_cases hxc : (e2.jniExceptionOc = true ∨ e2.callResult = false) <;>
        simp [Helper.setupNativeTextures, hs2, hrsu, hfresh, ha2, hxc]
    rw [hHeq]
    refine ⟨?_, ht2, ?_, ?_⟩
    · split_ifs <;>
        simp [List.filter_append, glOnly_no_sessionCall ht1g, isSessionCall]
    · split_ifs <;>
        simp [refDeletes_append, glOnly_no_refDeletes ht1g, refDeletes]
    · exact mfind_merase_self _ _ hnd2

/-- C2 counterexample: in the TextureManager revision, with session 7
registered under timestamp 100 and GL setup fully succeeding (texture 5 and
framebuffer 6 are generated), a failed JNI thread attach means no
`startCaptureSession` callback is invoked at all and the pending-session
store still contains key 100 — the claim's conclusion fails although GL
setup succeeded. -/
theorem allocate_handoff_claim_counterexample :
    texGens (TM.setupTextureNative ⟨[(100, 7)], [], [], ⟨1, 2, 3, 4, 5, 6⟩, true⟩
      ⟨11, 4, 4, 100⟩ ⟨⟨⟨1, true, 0⟩, ⟨1, true, 0⟩, 1, true, 0, 1, 1, 1, 1, 1⟩,
        5, 6, none, false⟩).2 = [5] ∧
    ¬ ((((TM.setupTextureNative ⟨[(100, 7)], [], [], ⟨1, 2, 3, 4, 5, 6⟩, true⟩
      ⟨11, 4, 4, 100⟩ ⟨⟨⟨1, true, 0⟩, ⟨1, true, 0⟩, 1, true, 0, 1, 1, 1, 1, 1⟩,
        5, 6, none, false⟩).2.filter isSessionCall).length = 1) ∧
      mfind (TM.setupTextureNative ⟨[(100, 7)], [], [], ⟨1, 2, 3, 4, 5, 6⟩, true⟩
        ⟨11, 4, 4, 100⟩ ⟨⟨⟨1, true, 0⟩, ⟨1, true, 0⟩, 1, true, 0, 1, 1, 1, 1, 1⟩,
          5, 6, none, false⟩).1.sessions 100 = none) := by
  constructor
  · decide
  · decide

/-- Witness for `allocate_handoff_success` at concrete states. -/
theorem allocate_handoff_success_witness :
    mfind (TM.setupTextureNative ⟨[(100, 7)], [], [], ⟨1, 2, 3, 4, 5, 6⟩, true⟩
      ⟨11, 4, 4, 100⟩ ⟨⟨⟨1, true, 0⟩, ⟨1, true, 0⟩, 1, true, 0, 1, 1, 1, 1, 1⟩,
        5, 6, some false, false⟩).1.sessions 100 = none ∧
    refDeletes (Helper.setupNativeTextures hSample ⟨11, 4, 4, 100⟩
      ⟨⟨⟨1, true, 0⟩, ⟨1, true, 0⟩, ⟨1, true, 0, 0, 0⟩, ⟨1, 1, false⟩, 9, 8⟩,
        some true, true, false⟩).2 = [9] := by
  have h := allocate_handoff_success
    ⟨[(100, 7)], [], [], ⟨1, 2, 3, 4, 5, 6⟩, true⟩ ⟨11, 4, 4, 100⟩
    ⟨⟨⟨1, true, 0⟩, ⟨1, true, 0⟩, 1, true, 0, 1, 1, 1, 1, 1⟩, 5, 6, some false, false⟩
    7 false hSample ⟨11, 4, 4, 100⟩
    ⟨⟨⟨1, true, 0⟩, ⟨1, true, 0⟩, ⟨1, true, 0, 0, 0⟩, ⟨1, 1, false⟩, 9, 8⟩,
      some true, true, false⟩ 9 8 true
    (by decide) (by decide) (by decide) (by decide) (by decide) (by decide)
    (by decide) (by decide) (by decide) (by decide) (by decide) (by decide)
    (by decide) (by decide)
  exact ⟨h.1.2.2.2, h.2.2.2.1⟩

/-- **C3** (confirmed).  For an ALLOCATE event whose timestamp has no
registered pending session: in the TextureManager revision, for EVERY
environment (any texture/framebuffer generation outcome, with fresh
generated names), all three registries are left unchanged, every GL texture
and framebuffer generated during the attempt is deleted before returning
(`glBalanced`), and the done callback runs exactly once; when GL setup
succeeds, the error log naming the missing session is emitted.  In the
STCaptureSessionHelper revision the session is looked up before any GL
object is created (generation deferred), and the run is exactly the
no-session error log plus a failure-flag done callback, with the state
unchanged. -/
theorem allocate_no_session_clean
    (sTM : TM.State) (d : TM.TextureSetupData)
    (sH : Helper.State) (d2 : Helper.NativeSetupData) (e2 : Helper.SetupEnv)
    (e : TM.SetupEnv)
    (hs : mfind sTM.sessions d.timeStamp = none)
    (hfresh : e.newTextureId ≠ 0 → mfind sTM.drawInfos e.newTextureId = none)
    (hm : sTM.methodIdOk = true)
    (hri : (SM.checkGlobalRenderInfo sTM.renderInfo e.smenv).1 = true)
    (ht : e.newTextureId ≠ 0)
    (hf : e.fboGenId ≠ 0)
    (hs2 : mfind sH.registeredSessions d2.timestamp = none) :
    (∀ e' : TM.SetupEnv,
      (e'.newTextureId ≠ 0 → mfind sTM.drawInfos e'.newTextureId = none) →
      ((TM.setupTextureNative sTM d e').1.sessions = sTM.sessions ∧
       (TM.setupTextureNative sTM d e').1.surfaceTextures = sTM.surfaceTextures ∧
       (TM.setupTextureNative sTM d e').1.drawInfos = sTM.drawInfos ∧
       glBalanced (TM.setupTextureNative sTM d e').2 ∧
       ((TM.setupTextureNative sTM d e').2.filter isDoneCb).length = 1)) ∧
    Event.logE "no uninitialized STCaptureSessions found for timeStamp" ∈
      (TM.setupTextureNative sTM d e).2 ∧
    Helper.setupNativeTextures sH d2 e2 =
      (sH, [Event.logE "No registered session found for timestamp",
            Event.doneCbFlags true false d2.unityTexture 0 false]) := by
  refine ⟨?_, ?_, ?_⟩
  · intro e' hfr
    rcases hcg : SM.checkGlobalRenderInfo sTM.renderInfo e'.smenv with ⟨ok, ri2, t0⟩
    have ht0q : t0.all quietEvent = true := by
      have := checkGlobalRenderInfo_quiet sTM.renderInfo e'.smenv
      rw [hcg] at this
      exact this
    have ht0g := all_glOnly_of_all_quiet ht0q
    rcases ok with _ | _
    · simp [TM.setupTextureNative, hm, hcg, glBalanced,
        texGens_append, texDels_append, fbGens_append, fbDels_append,
        List.filter_append, quiet_no_texGens ht0q, quiet_no_texDels ht0q,
        quiet_no_fbGens ht0q, quiet_no_fbDels ht0q, glOnly_no_doneCb ht0g,
        texGens, texDels, fbGens, fbDels, isDoneCb]
    · by_cases ht' : e'.newTextureId = 0
      · simp [TM.setupTextureNative, hm, hcg, ht', glBalanced,
          texGens_append, texDels_append, fbGens_append, fbDels_append,
          List.filter_append, quiet_no_texGens ht0q, quiet_no_texDels ht0q,
          quiet_no_fbGens ht0q, quiet_no_fbDels ht0q, glOnly_no_doneCb ht0g,
          texGens, texDels, fbGens, fbDels, isDoneCb]
      · have hdi := hfr ht'
        have hmm := fun (v : SM.DrawInfo) =>
          merase_mset_of_none sTM.drawInfos e'.newTextureId v hdi
        by_cases hf' : e'.fboGenId = 0
        · simp [TM.setupTextureNative, hm, hcg, ht', hf', hdi, hs,
            SM.createFrameBuffer, SM.cleanupFrameBuffer, glBalanced,
            texGens_append, texDels_append, fbGens_append, fbDels_append,
            List.filter_append, quiet_no_texGens ht0q, quiet_no_texDels ht0q,
            quiet_no_fbGens ht0q, quiet_no_fbDels ht0q, glOnly_no_doneCb ht0g,
            texGens, texDels, fbGens, fbDels, isDoneCb]
        · simp [TM.setupTextureNative, hm, hcg, ht', hf', hdi, hs, hmm,
            SM.createFrameBuffer, SM.cleanupFrameBuffer, glBalanced,
            texGens_append, texDels_append, fbGens_append, fbDels_append,
            List.filter_append, quiet_no_texGens ht0q, quiet_no_texDels ht0q,
            quiet_no_fbGens ht0q, quiet_no_fbDels ht0q, glOnly_no_doneCb ht0g,
            texGens, texDels, fbGens, fbDels, isDoneCb]
  · rcases hcg : SM.checkGlobalRenderInfo sTM.renderInfo e.smenv with ⟨ok, ri2, t0⟩
    rw [hcg] at hri
    simp only at hri
    subst hri
    have hdi := hfresh ht
    simp [TM.setupTextureNative, hm, hcg, ht, hf, hdi, hs,
      SM.createFrameBuffer, SM.cleanupFrameBuffer]
  · simp [Helper.setupNativeTextures, hs2]

/-- Witness for `allocate_no_session_clean` at concrete states: timestamp 999
was never registered. -/
theorem allocate_no_session_clean_witness :
    Event.logE "no uninitialized STCaptureSessions found for timeStamp" ∈
      (TM.setupTextureNative ⟨[(100, 7)], [], [], ⟨1, 2, 3, 4, 5, 6⟩, true⟩
        ⟨11, 4, 4, 999⟩ ⟨⟨⟨1, true, 0⟩, ⟨1, true, 0⟩, 1, true, 0, 1, 1, 1, 1, 1⟩,
          5, 6, some false, false⟩).2 ∧
    Helper.setupNativeTextures hSample ⟨11, 4, 4, 999⟩
      ⟨⟨⟨1, true, 0⟩, ⟨1, true, 0⟩, ⟨1, true, 0, 0, 0⟩, ⟨1, 1, false⟩, 9, 8⟩,
        some true, true, false⟩ =
      (hSample, [Event.logE "No registered session found for timestamp",
                 Event.doneCbFlags true false 11 0 false]) := by
  have h := allocate_no_session_clean
    ⟨[(100, 7)], [], [], ⟨1, 2, 3, 4, 5, 6⟩, true⟩ ⟨11, 4, 4, 999⟩
    hSample ⟨11, 4, 4, 999⟩
    ⟨⟨⟨1, true, 0⟩, ⟨1, true, 0⟩, ⟨1, true, 0, 0, 0⟩, ⟨1, 1, false⟩, 9, 8⟩,
      some true, true, false⟩
    ⟨⟨⟨1, true, 0⟩, ⟨1, true, 0⟩, 1, true, 0, 1, 1, 1, 1, 1⟩, 5, 6, some false, false⟩
    (by decide) (fun _ => by decide) (by decide) (by decide) (by decide) (by decide)
    (by decide)
  exact ⟨h.2.1, h.2.2⟩

/-- **C7** (confirmed).  In both revisions: after a link attempt both shader
objects are deleted regardless of the link outcome, and on link failure the
program object is deleted too, leaving no partially-linked program; on
every compile or link failure for which the driver reports a diagnostic
(positive info-log length; this revision of ShaderManager requires length
above 1), the info log is retrieved and logged strictly before the failed
shader or program object is deleted — visible in the exact event traces
below, where `getShaderLog`/`getProgramLog` and the error log precede the
corresponding `delShader`/`delProgram`. -/
theorem shader_cleanup_after_link
    (r : Rend.RendererState) (st : Rend.RendererStatics) (e : Rend.SetupEnv)
    (ec : Rend.CompileEnv) (g : SM.SetupEnv) (ec2 : Rend.CompileEnv)
    (hc1 : ec.createdId ≠ 0) (hc2 : ec.compileOk = false) (hc3 : ec.infoLogLength > 0)
    (hsp : st.shaderProgram = 0) (hvbo : st.vertexBufferObject ≠ 0)
    (hv1 : e.vertexCompile.createdId ≠ 0) (hv2 : e.vertexCompile.compileOk = true)
    (hf1 : e.fragmentCompile.createdId ≠ 0) (hf2 : e.fragmentCompile.compileOk = true)
    (hp : e.link.programId ≠ 0)
    (hg1 : g.vertexCompile.createdId ≠ 0) (hg2 : g.vertexCompile.compileOk = true)
    (hg3 : g.fragmentCompile.createdId ≠ 0) (hg4 : g.fragmentCompile.compileOk = true)
    (hgp : g.programId ≠ 0)
    (hgne : g.vertexCompile.createdId ≠ g.fragmentCompile.createdId)
    (hd1 : ec2.createdId ≠ 0) (hd2 : ec2.compileOk = false) (hd3 : ec2.infoLogLength > 1) :
    Rend.compileShader ec =
      (none, [Event.getShaderLog ec.createdId,
              Event.logE "Could not compile shader due to error",
              Event.delShader ec.createdId]) ∧
    (e.link.linkOk = false → e.link.infoLogLength > 0 →
      Rend.setup r st e = (none, r, { st with shaderProgram := 0 },
        [Event.logI "Compiled shader", Event.logI "Compiled shader",
         Event.attachShaderEv e.link.programId e.vertexCompile.createdId,
         Event.attachShaderEv e.link.programId e.fragmentCompile.createdId,
         Event.linkAttempt e.link.programId,
         Event.getProgramLog e.link.programId,
         Event.logE "Could not link shader due to error",
         Event.delProgram e.link.programId,
         Event.delShader e.vertexCompile.createdId,
         Event.delShader e.fragmentCompile.createdId])) ∧
    (e.link.linkOk = true →
      Rend.setup r st e = (some e.genTexId,
        ⟨r.unityTexture, e.genTexId, e.genFboId, r.width, r.height, r.disposed⟩,
        ⟨(st.staticReferenceHolders + 1) % 256, e.link.programId,
         e.link.transformMatrixLoc, e.link.textureSamplerLoc,
         st.vertexBufferObject, st.vertexArrayObject⟩,
        [Event.logI "Compiled shader", Event.logI "Compiled shader",
         Event.attachShaderEv e.link.programId e.vertexCompile.createdId,
         Event.attachShaderEv e.link.programId e.fragmentCompile.createdId,
         Event.linkAttempt e.link.programId,
         Event.logI "Linked shader program",
         Event.delShader e.vertexCompile.createdId,
         Event.delShader e.fragmentCompile.createdId,
         Event.genFramebuffer e.genFboId, Event.genTexture e.genTexId,
         Event.logI "Renderer setup complete"])) ∧
    SM.compileShader ec2 =
      (none, [Event.getShaderLog ec2.createdId,
              Event.logE "Could not compile shader due to error",
              Event.delShader ec2.createdId]) ∧
    (g.linkOk = false → g.linkInfoLen > 1 →
      SM.setupGlobals g = (false, SM.blankRenderInfo,
        [Event.attachShaderEv g.programId g.vertexCompile.createdId,
         Event.attachShaderEv g.programId g.fragmentCompile.createdId,
         Event.linkAttempt g.programId,
         Event.getProgramLog g.programId,
         Event.logE "setupGlobals failed, error linking shader program",
         Event.delShader g.vertexCompile.createdId,
         Event.delShader g.fragmentCompile.createdId,
         Event.delProgram g.programId])) ∧
    (g.linkOk = true →
      (SM.setupGlobals g).2.2.count (Event.delShader g.vertexCompile.createdId) = 1 ∧
      (SM.setupGlobals g).2.2.count (Event.delShader g.fragmentCompile.createdId) = 1) := by
  have hgne2 : g.fragmentCompile.createdId ≠ g.vertexCompile.createdId := Ne.symm hgne
  refine ⟨?_, ?_, ?_, ?_, ?_, ?_⟩
  · simp [Rend.compileShader, hc1, hc2, hc3]
  · intro hl hlen
    simp [Rend.setup, hsp, Rend.compileShader, hv1, hv2, hf1, hf2,
      Rend.linkShaderProgram, hp, hl, hlen]
  · intro hl
    simp [Rend.setup, hsp, Rend.compileShader, hv1, hv2, hf1, hf2,
      Rend.linkShaderProgram, hp, hl, hvbo]
  · simp [SM.compileShader, hd1, hd2, hd3]
  · intro hl hlen
    simp [SM.setupGlobals, SM.compileShader, hg1, hg2, hg3, hg4, hgp, hl, hlen,
      SM.cleanupGlobals, SM.blankRenderInfo]
  · intro hl
    by_cases hA : g.texLoc = -1 <;>
      by_cases hB : g.resLoc = -1 <;>
        by_cases hC : g.vboId = 0 <;>
          by_cases hD : g.eboId = 0 <;>
            by_cases hE : g.vaoId = 0 <;>
              simp [SM.setupGlobals, SM.compileShader, hg1, hg2, hg3, hg4, hgp,
                hl, hA, hB, hC, hD, hE, SM.cleanupGlobals, SM.blankRenderInfo,
                List.count_cons, hgne, hgne2]

/-- Witness for `shader_cleanup_after_link` at concrete environments: a failed
link in the Renderer revision (program 7, shaders 5 and 6) and a successful
link in the ShaderManager revision. -/
theorem shader_cleanup_after_link_witness :
    Rend.setup ⟨1, 0, 0, 4, 4, false⟩ ⟨1, 0, 0, 0, 2, 3⟩
        ⟨⟨5, true, 0⟩, ⟨6, true, 0⟩, ⟨7, false, 3, 0, 0⟩, ⟨1, 1, false⟩, 8, 9⟩ =
      (none, ⟨1, 0, 0, 4, 4, false⟩, ⟨1, 0, 0, 0, 2, 3⟩,
        [Event.logI "Compiled shader", Event.logI "Compiled shader",
         Event.attachShaderEv 7 5, Event.attachShaderEv 7 6, Event.linkAttempt 7,
         Event.getProgramLog 7, Event.logE "Could not link shader due to error",
         Event.delProgram 7, Event.delShader 5, Event.delShader 6]) ∧
    (SM.setupGlobals ⟨⟨5, true, 0⟩, ⟨6, true, 0⟩, 7, true, 0, 1, 1, 2, 3, 4⟩).2.2.count
      (Event.delShader 5) = 1 := by
  have h := shader_cleanup_after_link ⟨1, 0, 0, 4, 4, false⟩ ⟨1, 0, 0, 0, 2, 3⟩
    ⟨⟨5, true, 0⟩, ⟨6, true, 0⟩, ⟨7, false, 3, 0, 0⟩, ⟨1, 1, false⟩, 8, 9⟩
    ⟨5, false, 3⟩ ⟨⟨5, true, 0⟩, ⟨6, true, 0⟩, 7, true, 0, 1, 1, 2, 3, 4⟩ ⟨5, false, 3⟩
    (by decide) (by decide) (by decide) (by decide) (by decide) (by decide)
    (by decide) (by decide) (by decide) (by decide) (by decide) (by decide)
    (by decide) (by decide) (by decide) (by decide) (by decide) (by decide)
    (by decide)
  exact ⟨h.2.1 (by decide) (by decide), (h.2.2.2.2.2 (by decide)).1⟩
